import Mathlib

/-!
Verification of the agentic book-generation core of `book-creator-tool`.

The Python source under `src/book_creator` is shallowly embedded:
dataclasses become structures, enums become inductives, Python dicts with
string keys become association lists over a `Json` value type, fallible
code returns `Except PyErr`, and `datetime.now()` is passed in explicitly
as a `Nat` timestamp.  Calls into the LLM ("Text Generation Capability")
are modelled as explicit function parameters, so theorems quantify over
every possible generated text.
-/

namespace BookCreator

/-- Model of a Python value stored in a `Dict[str, Any]` / parsed JSON.
Floating-point literals are outside the modelled fragment (no claim uses
them); integers model Python ints exactly. -/
inductive Json where
  | null : Json
  | bool : Bool → Json
  | num : Int → Json
  | str : String → Json
  | arr : List Json → Json
  | obj : List (String × Json) → Json

/-- Python exception kinds raised by the embedded code. -/
inductive PyErr where
  | valueError : PyErr
  | attributeError : PyErr
  | typeError : PyErr
  | jsonDecodeError : PyErr
  | runtimeError : String → PyErr
deriving DecidableEq

/-- Python truthiness of a `Json` value (`if data.get(k):`). -/
def Json.truthy : Json → Bool
  | .null => false
  | .bool b => b
  | .num n => n != 0
  | .str s => s != ""
  | .arr xs => !xs.isEmpty
  | .obj fs => !fs.isEmpty

/-- Lookup in a Python dict: `d.get(k)`. -/
def dictGet (d : List (String × Json)) (k : String) : Option Json :=
  (d.find? (fun p => p.1 == k)).map Prod.snd

/-- Python dict assignment `d[k] = v`: overwrite an existing key in place,
otherwise append. -/
def dictSet (d : List (String × Json)) (k : String) (v : Json) : List (String × Json) :=
  if d.any (fun p => p.1 == k) then
    d.map (fun p => if p.1 == k then (k, v) else p)
  else
    d ++ [(k, v)]

/-- Rendering of a `Json` value as a Python string where the source stores
a duck-typed non-string value in a `str`-annotated field.  Only the flat
cases are spelled out; no claim observes the rendering of nested values. -/
def Json.asPyStr : Json → String
  | .null => "None"
  | .bool b => if b then "True" else "False"
  | .num n => toString n
  | .str s => s
  | .arr _ => "[...]"
  | .obj _ => "\x7b...\x7d"

/-- Lenient string extraction `data.get(k, default)` for a `str`-annotated
dataclass field. -/
def jStrD (d : List (String × Json)) (k dflt : String) : String :=
  match dictGet d k with
  | some v => v.asPyStr
  | none => dflt

/-- Lenient bool extraction `data.get(k, default)` for a `bool`-annotated
field (a non-bool value is kept by Python; we record its truthiness). -/
def jBoolD (d : List (String × Json)) (k : String) (dflt : Bool) : Bool :=
  match dictGet d k with
  | some (.bool b) => b
  | some v => v.truthy
  | none => dflt

/-- Optional int extraction `data.get(k)` for an `Optional[int]` field.
Negative ints do not occur in the modelled domain, so `Nat` is used. -/
def jNatOpt (d : List (String × Json)) (k : String) : Option Nat :=
  match dictGet d k with
  | some (.num n) => some n.toNat
  | _ => none

/-- Nat extraction with a default, `data.get(k, dflt)` for an `int` field. -/
def jNatD (d : List (String × Json)) (k : String) (dflt : Nat) : Nat :=
  match dictGet d k with
  | some (.num n) => n.toNat
  | _ => dflt

/-- List-of-strings extraction `data.get(k, [])` for a `List[str]` field. -/
def jStrListD (d : List (String × Json)) (k : String) : List String :=
  match dictGet d k with
  | some (.arr xs) => xs.map Json.asPyStr
  | _ => []

/-- Lifecycle states, `models/agentic.py` `LifecycleState`. -/
inductive LifecycleState where
  | INIT | INTERPRET | PLAN | WRITE | REVIEW
  | REPAIR | FORMAT | EXPORT | COMPLETE | FAILED
deriving DecidableEq, Fintype

/-- Enum value strings of `LifecycleState`. -/
def LifecycleState.value : LifecycleState → String
  | .INIT => "init"
  | .INTERPRET => "interpret"
  | .PLAN => "plan"
  | .WRITE => "write"
  | .REVIEW => "review"
  | .REPAIR => "repair"
  | .FORMAT => "format"
  | .EXPORT => "export"
  | .COMPLETE => "complete"
  | .FAILED => "failed"

/-- Complexity levels, `models/agentic.py` `ComplexityLevel`. -/
inductive ComplexityLevel where
  | BEGINNER | INTERMEDIATE | ADVANCED | EXPERT
deriving DecidableEq

/-- Enum value strings of `ComplexityLevel`. -/
def ComplexityLevel.value : ComplexityLevel → String
  | .BEGINNER => "beginner"
  | .INTERMEDIATE => "intermediate"
  | .ADVANCED => "advanced"
  | .EXPERT => "expert"

/-- The enum constructor `ComplexityLevel(x)`: raises `ValueError` unless
`x` is one of the four value strings. -/
def ComplexityLevel.fromValue : Json → Except PyErr ComplexityLevel
  | .str "beginner" => .ok .BEGINNER
  | .str "intermediate" => .ok .INTERMEDIATE
  | .str "advanced" => .ok .ADVANCED
  | .str "expert" => .ok .EXPERT
  | _ => .error .valueError

/-- Position of a complexity level in the total order
BEGINNER < INTERMEDIATE < ADVANCED < EXPERT. -/
def ComplexityLevel.rank : ComplexityLevel → Nat
  | .BEGINNER => 0
  | .INTERMEDIATE => 1
  | .ADVANCED => 2
  | .EXPERT => 3

/-- Review statuses, `models/agentic.py` `ReviewStatus`. -/
inductive ReviewStatus where
  | PENDING | PASSED | FAILED | NEEDS_REPAIR
deriving DecidableEq

/-- Enum value strings of `ReviewStatus`. -/
def ReviewStatus.value : ReviewStatus → String
  | .PENDING => "pending"
  | .PASSED => "passed"
  | .FAILED => "failed"
  | .NEEDS_REPAIR => "needs_repair"

/-- The enum constructor `ReviewStatus(x)`. -/
def ReviewStatus.fromValue : Json → Except PyErr ReviewStatus
  | .str "pending" => .ok .PENDING
  | .str "passed" => .ok .PASSED
  | .str "failed" => .ok .FAILED
  | .str "needs_repair" => .ok .NEEDS_REPAIR
  | _ => .error .valueError

/-- A learning objective, `models/agentic.py` `LearningObjective`. -/
structure LearningObjective where
  description : String
  chapter_number : Option Nat := none
  bloom_level : String := "understand"
deriving DecidableEq

/-- Blueprint for one chapter, `models/agentic.py` `ChapterBlueprint`. -/
structure ChapterBlueprint where
  number : Nat
  title : String
  description : String
  complexity_level : ComplexityLevel
  estimated_length : Nat
  section_titles : List String := []
  learning_objectives : List LearningObjective := []
  key_concepts : List String := []
  prerequisites : List String := []
  review_status : ReviewStatus := .PENDING
  review_notes : List String := []
deriving DecidableEq

/-- Blueprint for the whole book, `models/agentic.py` `BookBlueprint`.
The `created_at` datetime is modelled as a `Nat` timestamp. -/
structure BookBlueprint where
  title : String
  author : String := "AI Book Builder"
  description : String := ""
  target_audience : String := ""
  assumed_prior_knowledge : List String := []
  complexity_level : ComplexityLevel := .INTERMEDIATE
  learning_objectives : List LearningObjective := []
  chapters : List ChapterBlueprint := []
  total_chapters : Nat := 10
  estimated_total_words : Nat := 20000
  estimated_pages : Nat := 100
  tone : String := "professional"
  output_format : String := "pdf"
  programming_language : String := ""
  include_exercises : Bool := true
  include_code_examples : Bool := true
  created_at : Nat := 0
deriving DecidableEq

/-- Structured user request, `models/agentic.py` `UserPrompt`. -/
structure UserPrompt where
  topic : String
  audience : String := ""
  learning_outcome : String := ""
  complexity_level : Option ComplexityLevel := none
  book_length : Option Nat := none
  tone : String := "professional"
  output_format : String := "pdf"
  region_context : String := ""
  include_exercises : Bool := true
  include_code_examples : Bool := true
  programming_language : String := ""
deriving DecidableEq

/-- Result of one editor review, `models/agentic.py` `ReviewResult`. -/
structure ReviewResult where
  passed : Bool
  chapter_number : Nat
  issues : List String := []
  suggestions : List String := []
  coherence_issues : List String := []
  complexity_issues : List String := []
  length_issues : List String := []
  topic_deviation_issues : List String := []
deriving DecidableEq

/-- A code example record added by `Section.add_code_example`. -/
structure CodeExample where
  code : String
  language : String
  explanation : String := ""
deriving DecidableEq

/-- An exercise record added by `Section.add_exercise`. -/
structure ExerciseRec where
  question : String
  answer : String := ""
  hints : List String := []
deriving DecidableEq

/-- A section of realized content, `models/book.py` `Section`. -/
structure Section where
  title : String
  content : String := ""
  code_examples : List CodeExample := []
  exercises : List ExerciseRec := []
  metadata : List (String × Json) := []

/-- A realized chapter, `models/book.py` `Chapter`. -/
structure Chapter where
  title : String
  number : Nat
  sections : List Section := []
  introduction : String := ""
  summary : String := ""
  metadata : List (String × Json) := []

/-- A realized book, `models/book.py` `Book`.  Datetimes are `Nat`
timestamps. -/
structure Book where
  title : String
  author : String
  chapters : List Chapter := []
  description : String := ""
  preface : String := ""
  target_audience : String := ""
  programming_language : String := ""
  metadata : List (String × Json) := []
  created_at : Nat := 0
  updated_at : Nat := 0

/-- Lookup of a chapter by number, `Book.get_chapter`: the first chapter
whose `number` matches, or `None`. -/
def Book.get_chapter (b : Book) (number : Nat) : Option Chapter :=
  b.chapters.find? (fun chapter => chapter.number == number)

/-- Appending a chapter, `Book.add_chapter` (also stamps `updated_at`
with the current time, passed in as `now`). -/
def Book.add_chapter (b : Book) (chapter : Chapter) (now : Nat) : Book :=
  { b with chapters := b.chapters ++ [chapter], updated_at := now }

/-- Orchestrator working record, `models/agentic.py` `AgenticState`. -/
structure AgenticState where
  current_state : LifecycleState := .INIT
  user_prompt : Option UserPrompt := none
  raw_prompt : String := ""
  blueprint : Option BookBlueprint := none
  review_results : List ReviewResult := []
  chapters_written : Nat := 0
  chapters_reviewed : Nat := 0
  repair_iterations : Nat := 0
  max_repair_iterations : Nat := 3
  output_path : String := ""
  started_at : Nat := 0
  completed_at : Option Nat := none
  errors : List String := []

/-- The allowed-transition table of `AgenticState.can_transition_to`
(`models/agentic.py` lines 368-379). -/
def allowed_transitions : LifecycleState → List LifecycleState
  | .INIT => [.INTERPRET, .FAILED]
  | .INTERPRET => [.PLAN, .FAILED]
  | .PLAN => [.WRITE, .FAILED]
  | .WRITE => [.REVIEW, .FAILED]
  | .REVIEW => [.FORMAT, .REPAIR, .FAILED]
  | .REPAIR => [.REVIEW, .FAILED]
  | .FORMAT => [.EXPORT, .FAILED]
  | .EXPORT => [.COMPLETE, .FAILED]
  | .COMPLETE => []
  | .FAILED => []

/-- Transition legality check, `AgenticState.can_transition_to`. -/
def AgenticState.can_transition_to (s : AgenticState) (new_state : LifecycleState) : Bool :=
  (allowed_transitions s.current_state).contains new_state

/-- State transition, `AgenticState.transition_to`: switches state and
returns `true` when the transition is legal (stamping `completed_at`
with the current time `now` on reaching COMPLETE), otherwise returns
`false` and leaves the record untouched. -/
def AgenticState.transition_to (s : AgenticState) (new_state : LifecycleState) (now : Nat) :
    Bool × AgenticState :=
  if s.can_transition_to new_state then
    let s1 := { s with current_state := new_state }
    let s2 := if new_state = .COMPLETE then { s1 with completed_at := some now } else s1
    (true, s2)
  else
    (false, s)

/-- JSON whitespace skipping (space, tab, newline, carriage return). -/
def skipWs : List Char → List Char
  | [] => []
  | c :: cs => if c = ' ' || c = '\t' || c = '\n' || c = '\r' then skipWs cs else c :: cs

/-- Decoding of a JSON string escape character.  The `\uXXXX` form is
outside the modelled fragment (no claim uses it). -/
def escChar (e : Char) : Option Char :=
  if e = '"' || e = '/' then some e
  else if e = '\\' then some '\\'
  else if e = 'n' then some '\n'
  else if e = 't' then some '\t'
  else if e = 'r' then some '\r'
  else if e = 'b' then some '\x08'
  else if e = 'f' then some '\x0c'
  else none

/-- Parsing of the body of a JSON string literal (after the opening
quote), returning the decoded characters and the remaining input. -/
def parseStrChars : List Char → Option (List Char × List Char)
  | [] => none
  | '"' :: rest => some ([], rest)
  | '\\' :: e :: rest =>
    match escChar e with
    | some c => (parseStrChars rest).map (fun p => (c :: p.1, p.2))
    | none => none
  | c :: rest => (parseStrChars rest).map (fun p => (c :: p.1, p.2))

/-- Parsing of a nonempty run of decimal digits. -/
def parseDigits (cs : List Char) : Option (Nat × List Char) :=
  let ds := cs.takeWhile Char.isDigit
  if ds.isEmpty then none
  else some (ds.foldl (fun a c => 10 * a + (c.toNat - '0'.toNat)) 0, cs.dropWhile Char.isDigit)

mutual

/-- Fuel-indexed JSON value parser modelling `json.loads` on the fragment
the repository exchanges (null/true/false, integers, strings, arrays,
objects).  Floating-point numbers are outside the modelled fragment. -/
def parseVal : Nat → List Char → Option (Json × List Char)
  | 0, _ => none
  | fuel + 1, cs =>
    match skipWs cs with
    | 'n' :: 'u' :: 'l' :: 'l' :: rest => some (.null, rest)
    | 't' :: 'r' :: 'u' :: 'e' :: rest => some (.bool true, rest)
    | 'f' :: 'a' :: 'l' :: 's' :: 'e' :: rest => some (.bool false, rest)
    | '"' :: rest => (parseStrChars rest).map (fun p => (.str (String.mk p.1), p.2))
    | '-' :: rest => (parseDigits rest).map (fun p => (.num (-(p.1 : Int)), p.2))
    | '[' :: rest =>
      (match skipWs rest with
       | ']' :: r2 => some (.arr [], r2)
       | _ => (parseItems fuel rest).map (fun p => (.arr p.1, p.2)))
    | '{' :: rest =>
      (match skipWs rest with
       | '}' :: r2 => some (.obj [], r2)
       | _ => (parseMembers fuel rest).map (fun p => (.obj p.1, p.2)))
    | c :: rest =>
      if c.isDigit then (parseDigits (c :: rest)).map (fun p => (.num (p.1 : Int), p.2))
      else none
    | [] => none

/-- Parsing of the comma-separated items of a JSON array up to `]`. -/
def parseItems : Nat → List Char → Option (List Json × List Char)
  | 0, _ => none
  | fuel + 1, cs =>
    match parseVal fuel cs with
    | none => none
    | some (v, r) =>
      match skipWs r with
      | ',' :: r2 => (parseItems fuel r2).map (fun p => (v :: p.1, p.2))
      | ']' :: r2 => some ([v], r2)
      | _ => none

/-- Parsing of the comma-separated members of a JSON object up to `}`. -/
def parseMembers : Nat → List Char → Option (List (String × Json) × List Char)
  | 0, _ => none
  | fuel + 1, cs =>
    match skipWs cs with
    | '"' :: rest =>
      (match parseStrChars rest with
       | none => none
       | some (key, r) =>
         match skipWs r with
         | ':' :: r2 =>
           (match parseVal fuel r2 with
            | none => none
            | some (v, r3) =>
              match skipWs r3 with
              | ',' :: r4 => (parseMembers fuel r4).map
                  (fun p => ((String.mk key, v) :: p.1, p.2))
              | '}' :: r4 => some ([(String.mk key, v)], r4)
              | _ => none)
         | _ => none)
    | _ => none

end

/-- Model of `json.loads`: parse one value and require the rest of the
input to be whitespace; `none` models `json.JSONDecodeError`. -/
def json_loads (s : String) : Option Json :=
  let cs := s.toList
  match parseVal (2 * cs.length + 4) cs with
  | some (v, rest) => if (skipWs rest).isEmpty then some v else none
  | none => none

/-- Balanced-brace scan of `planner._extract_json_object`: starting at the
first `\x7b`, count opening and closing braces (ignoring string contents,
exactly as the source does) and return the span in which the depth first
returns to zero. -/
def takeBalanced (open_c close_c : Char) : List Char → Nat → Option (List Char)
  | [], _ => none
  | c :: rest, depth =>
    if c = close_c && depth = 1 then some [c]
    else
      let d := if c = open_c then depth + 1 else if c = close_c then depth - 1 else depth
      (takeBalanced open_c close_c rest d).map (c :: ·)

/-- Extraction of the first balanced JSON object from free text,
`planner._extract_json_object`. -/
def _extract_json_object (text : String) : Option (List (String × Json)) :=
  let cs := text.toList
  match cs.findIdx? (· == '{') with
  | none => none
  | some start =>
    match takeBalanced '{' '}' (cs.drop start) 0 with
    | none => none
    | some span =>
      match json_loads (String.mk span) with
      | some (.obj fields) => some fields
      | _ => none

/-- Extraction of the first balanced JSON array from free text,
`planner._extract_json_array`. -/
def _extract_json_array (text : String) : Option (List Json) :=
  let cs := text.toList
  match cs.findIdx? (· == '[') with
  | none => none
  | some start =>
    match takeBalanced '[' ']' (cs.drop start) 0 with
    | none => none
    | some span =>
      match json_loads (String.mk span) with
      | some (.arr xs) => some xs
      | _ => none

/-- Span matched by the editor's `re.search(r'\[.*\]', response, re.DOTALL)`:
the leftmost `[` that is followed by a `]`, greedily extended to the last
`]` of the text. -/
def bracketSpan (s : String) : Option String :=
  let cs := s.toList
  match cs.findIdx? (· == '[') with
  | none => none
  | some i =>
    let j := cs.length - 1 - ((cs.reverse.findIdx? (· == ']')).getD 0)
    if (cs.reverse.findIdx? (· == ']')).isSome && i < j then
      some (String.mk ((cs.drop i).take (j - i + 1)))
    else none

/-- Serialization of a learning objective as written inline by
`ChapterBlueprint.to_dict` and `BookBlueprint.to_dict`: only `description`
and `bloom_level` are emitted (`chapter_number` is not serialized). -/
def LearningObjective.to_dict_entry (o : LearningObjective) : Json :=
  .obj [("description", .str o.description), ("bloom_level", .str o.bloom_level)]

/-- Decoding of one learning objective as written inline by the
`from_dict` classmethods; `.get` on a non-dict raises `AttributeError`. -/
def parseObjective : Json → Except PyErr LearningObjective
  | .obj d => .ok { description := jStrD d "description" "",
                    bloom_level := jStrD d "bloom_level" "understand" }
  | _ => .error .attributeError

/-- Left-to-right effectful map modelling a Python list comprehension:
the first element that raises propagates its error. -/
def mapExcept {α : Type} (f : Json → Except PyErr α) : List Json → Except PyErr (List α)
  | [] => .ok []
  | j :: rest => do
    let x ← f j
    let xs ← mapExcept f rest
    .ok (x :: xs)

/-- List payload of `data.get(k, [])` that the source then iterates;
iterating a non-list value raises `TypeError`. -/
def jListE (d : List (String × Json)) (k : String) : Except PyErr (List Json) :=
  match dictGet d k with
  | some (.arr xs) => .ok xs
  | none => .ok []
  | some _ => .error .typeError

/-- Serialization `ChapterBlueprint.to_dict` (`models/agentic.py`). -/
def ChapterBlueprint.to_dict (c : ChapterBlueprint) : List (String × Json) :=
  [("number", .num c.number),
   ("title", .str c.title),
   ("description", .str c.description),
   ("complexity_level", .str c.complexity_level.value),
   ("estimated_length", .num c.estimated_length),
   ("section_titles", .arr (c.section_titles.map Json.str)),
   ("learning_objectives", .arr (c.learning_objectives.map LearningObjective.to_dict_entry)),
   ("key_concepts", .arr (c.key_concepts.map Json.str)),
   ("prerequisites", .arr (c.prerequisites.map Json.str)),
   ("review_status", .str c.review_status.value),
   ("review_notes", .arr (c.review_notes.map Json.str))]

/-- Deserialization `ChapterBlueprint.from_dict` (`models/agentic.py`). -/
def ChapterBlueprint.from_dict (data : List (String × Json)) : Except PyErr ChapterBlueprint := do
  let objsJ ← jListE data "learning_objectives"
  let objectives ← mapExcept parseObjective objsJ
  let complexity ← ComplexityLevel.fromValue ((dictGet data "complexity_level").getD (.str "intermediate"))
  let status ← ReviewStatus.fromValue ((dictGet data "review_status").getD (.str "pending"))
  .ok { number := jNatD data "number" 0,
        title := jStrD data "title" "",
        description := jStrD data "description" "",
        complexity_level := complexity,
        estimated_length := jNatD data "estimated_length" 2000,
        section_titles := jStrListD data "section_titles",
        learning_objectives := objectives,
        key_concepts := jStrListD data "key_concepts",
        prerequisites := jStrListD data "prerequisites",
        review_status := status,
        review_notes := jStrListD data "review_notes" }

/-- Serialization `BookBlueprint.to_dict` (`models/agentic.py`).  The
`created_at.isoformat()` text is modelled by the timestamp value itself:
Python's `isoformat`/`fromisoformat` pair is an exact-inverse encoding, and
no claim observes the encoded text. -/
def BookBlueprint.to_dict (b : BookBlueprint) : List (String × Json) :=
  [("title", .str b.title),
   ("author", .str b.author),
   ("description", .str b.description),
   ("target_audience", .str b.target_audience),
   ("assumed_prior_knowledge", .arr (b.assumed_prior_knowledge.map Json.str)),
   ("complexity_level", .str b.complexity_level.value),
   ("learning_objectives", .arr (b.learning_objectives.map LearningObjective.to_dict_entry)),
   ("chapters", .arr (b.chapters.map (fun c => .obj c.to_dict))),
   ("total_chapters", .num b.total_chapters),
   ("estimated_total_words", .num b.estimated_total_words),
   ("estimated_pages", .num b.estimated_pages),
   ("tone", .str b.tone),
   ("output_format", .str b.output_format),
   ("programming_language", .str b.programming_language),
   ("include_exercises", .bool b.include_exercises),
   ("include_code_examples", .bool b.include_code_examples),
   ("created_at", .num b.created_at)]

/-- Deserialization `BookBlueprint.from_dict` (`models/agentic.py`); `now`
is the `datetime.now()` fallback used when the timestamp is missing or
fails to parse. -/
def BookBlueprint.from_dict (now : Nat) (data : List (String × Json)) : Except PyErr BookBlueprint := do
  let objsJ ← jListE data "learning_objectives"
  let objectives ← mapExcept parseObjective objsJ
  let chsJ ← jListE data "chapters"
  let chapters ← mapExcept (fun j =>
    match j with
    | .obj d => ChapterBlueprint.from_dict d
    | _ => (.error .attributeError : Except PyErr ChapterBlueprint)) chsJ
  let complexity ← ComplexityLevel.fromValue ((dictGet data "complexity_level").getD (.str "intermediate"))
  let created_at :=
    match dictGet data "created_at" with
    | some (.num n) => n.toNat
    | _ => now
  .ok { title := jStrD data "title" "",
        author := jStrD data "author" "AI Book Builder",
        description := jStrD data "description" "",
        target_audience := jStrD data "target_audience" "",
        assumed_prior_knowledge := jStrListD data "assumed_prior_knowledge",
        complexity_level := complexity,
        learning_objectives := objectives,
        chapters := chapters,
        total_chapters := jNatD data "total_chapters" 10,
        estimated_total_words := jNatD data "estimated_total_words" 20000,
        estimated_pages := jNatD data "estimated_pages" 100,
        tone := jStrD data "tone" "professional",
        output_format := jStrD data "output_format" "pdf",
        programming_language := jStrD data "programming_language" "",
        include_exercises := jBoolD data "include_exercises" true,
        include_code_examples := jBoolD data "include_code_examples" true,
        created_at := created_at }

/-- Deserialization `UserPrompt.from_dict` (`models/agentic.py`): `.get`
on a non-dict raises `AttributeError`; `ComplexityLevel(x)` on a truthy
but invalid `complexity_level` raises `ValueError`. -/
def UserPrompt.from_dict (j : Json) : Except PyErr UserPrompt := do
  match j with
  | .obj data =>
    let complexity ←
      match dictGet data "complexity_level" with
      | some v =>
        if v.truthy then (ComplexityLevel.fromValue v).map some
        else pure (none : Option ComplexityLevel)
      | none => pure none
    .ok { topic := jStrD data "topic" "",
          audience := jStrD data "audience" "",
          learning_outcome := jStrD data "learning_outcome" "",
          complexity_level := complexity,
          book_length := jNatOpt data "book_length",
          tone := jStrD data "tone" "professional",
          output_format := jStrD data "output_format" "pdf",
          region_context := jStrD data "region_context" "",
          include_exercises := jBoolD data "include_exercises" true,
          include_code_examples := jBoolD data "include_code_examples" true,
          programming_language := jStrD data "programming_language" "" }
  | _ => .error .attributeError

/-- ASCII lowercase of one character (the fragment of Python
`str.lower` exercised by the repository). -/
def char_lower (c : Char) : Char :=
  if 'A' ≤ c && c ≤ 'Z' then Char.ofNat (c.toNat + 32) else c

/-- Python `s.lower()` on the ASCII fragment. -/
def py_lower (s : String) : String := String.mk (s.toList.map char_lower)

/-- Helper for `py_in`: list prefix test. -/
def listPrefix : List Char → List Char → Bool
  | [], _ => true
  | a :: as, b :: bs => a == b && listPrefix as bs
  | _, _ => false

/-- Helper for `py_in`: list infix test. -/
def listInfix (w : List Char) : List Char → Bool
  | [] => w.isEmpty
  | c :: cs => listPrefix w (c :: cs) || listInfix w cs

/-- Python substring containment `w in s`. -/
def py_in (w s : String) : Bool := listInfix w.toList s.toList

/-- Prompt interpretation `PlannerAgent.interpret_prompt`
(`agents/planner.py`).  `response` is the text returned by the Text
Generation Capability for the interpretation request; `raw_prompt` is the
user's raw text.  Only `json.JSONDecodeError` is caught (yielding the
degraded fallback prompt); errors raised by `UserPrompt.from_dict`
propagate. -/
def interpret_prompt (response raw_prompt : String) : Except PyErr UserPrompt :=
  match _extract_json_object response with
  | some data => UserPrompt.from_dict (.obj data)
  | none =>
    match json_loads response with
    | none => .ok { topic := raw_prompt,
                    audience := "general readers",
                    learning_outcome := "Understand " ++ raw_prompt }
    | some j => UserPrompt.from_dict j

/-- Complexity inference `PlannerAgent._infer_complexity`
(`agents/planner.py` lines 240-251): case-insensitive substring matching
of the audience against three keyword lists, first matching list wins. -/
def _infer_complexity (prompt : UserPrompt) : ComplexityLevel :=
  let audience_lower := py_lower prompt.audience
  if ["beginner", "new", "intro", "basic", "children", "kids"].any (fun w => py_in w audience_lower) then
    .BEGINNER
  else if ["advanced", "senior", "expert", "professional"].any (fun w => py_in w audience_lower) then
    .ADVANCED
  else if ["expert", "specialist", "researcher"].any (fun w => py_in w audience_lower) then
    .EXPERT
  else
    .INTERMEDIATE

/-- The complexity-selection step of `PlannerAgent.create_blueprint`
(`agents/planner.py` line 181): `user_prompt.complexity_level or
self._infer_complexity(user_prompt)`.  Enum members are always truthy in
Python, so an explicit value is used unchanged. -/
def create_blueprint_complexity (user_prompt : UserPrompt) : ComplexityLevel :=
  match user_prompt.complexity_level with
  | some c => c
  | none => _infer_complexity user_prompt

/-- Chapter complexity progression `PlannerAgent._get_chapter_complexity`
(`agents/planner.py` lines 388-421).  `progress = chapter_num /
total_chapters` is computed in Python as a binary float; it is modelled
here in exact rational arithmetic, with which the branch comparisons agree
on all realistic chapter counts (the literals 0.2, 0.3, 0.5, 0.6 denote
exact rationals). -/
def _get_chapter_complexity (chapter_num total_chapters : Nat)
    (base_complexity : ComplexityLevel) : ComplexityLevel :=
  let progress : ℚ := (chapter_num : ℚ) / (total_chapters : ℚ)
  match base_complexity with
  | .BEGINNER => .BEGINNER
  | .INTERMEDIATE => if progress < 0.3 then .BEGINNER else .INTERMEDIATE
  | .ADVANCED =>
    if progress < 0.2 then .BEGINNER
    else if progress < 0.5 then .INTERMEDIATE
    else .ADVANCED
  | .EXPERT =>
    if progress < 0.2 then .INTERMEDIATE
    else if progress < 0.6 then .ADVANCED
    else .EXPERT

/-- Construction of one chapter blueprint from a parsed chapter record in
`PlannerAgent._generate_chapter_blueprints` (`agents/planner.py` lines
351-367); `all_concepts` is the accumulated concept list at this point and
`prerequisites[:5]` takes its first five entries. -/
def chapterFromData (i num_chapters : Nat) (complexity : ComplexityLevel)
    (all_concepts : List String) (ch_data : List (String × Json)) : ChapterBlueprint :=
  { number := i,
    title := jStrD ch_data "title" ("Chapter " ++ toString i),
    description := jStrD ch_data "description" "",
    complexity_level := _get_chapter_complexity i num_chapters complexity,
    estimated_length := jNatD ch_data "estimated_length" 2000,
    section_titles := jStrListD ch_data "section_titles",
    key_concepts := jStrListD ch_data "key_concepts",
    prerequisites := all_concepts.take 5 }

/-- The chapter loop of `PlannerAgent._generate_chapter_blueprints`:
returns the chapters appended so far and whether an `AttributeError`
aborted the loop (a non-dict array element). -/
def blueprintLoop (num_chapters : Nat) (complexity : ComplexityLevel) :
    Nat → List String → List Json → List ChapterBlueprint × Bool
  | _, _, [] => ([], false)
  | i, all_concepts, j :: rest =>
    match j with
    | .obj ch_data =>
      let ch := chapterFromData i num_chapters complexity all_concepts ch_data
      let tail := blueprintLoop num_chapters complexity (i + 1)
        (all_concepts ++ jStrListD ch_data "key_concepts") rest
      (ch :: tail.1, tail.2)
    | _ => ([], true)

/-- Fallback chapters generated in the `except` branch of
`PlannerAgent._generate_chapter_blueprints`. -/
def fallback_chapters (prompt : UserPrompt) (num_chapters : Nat)
    (complexity : ComplexityLevel) : List ChapterBlueprint :=
  (List.range num_chapters).map (fun k =>
    let i := k + 1
    { number := i,
      title := "Chapter " ++ toString i ++ ": " ++ prompt.topic ++ " - Part " ++ toString i,
      description := "Part " ++ toString i ++ " of " ++ prompt.topic,
      complexity_level := complexity,
      estimated_length := 2000,
      section_titles := ["Section " ++ toString i ++ ".1", "Section " ++ toString i ++ ".2",
                         "Section " ++ toString i ++ ".3"] })

/-- Chapter blueprint generation `PlannerAgent._generate_chapter_blueprints`
(`agents/planner.py` lines 315-386).  `response` is the Text Generation
Capability's reply.  When extraction yields `None` or an empty array the
guard `if data and isinstance(data, list)` skips the loop and the empty
chapter list is returned; an `AttributeError` raised mid-loop keeps the
chapters already appended and then appends the generic fallback chapters. -/
def _generate_chapter_blueprints (response : String) (prompt : UserPrompt)
    (num_chapters : Nat) (complexity : ComplexityLevel) : List ChapterBlueprint :=
  match _extract_json_array response with
  | none => []
  | some data =>
    if data.isEmpty then []
    else
      let r := blueprintLoop num_chapters complexity 1 [] (data.take num_chapters)
      if r.2 then r.1 ++ fallback_chapters prompt num_chapters complexity else r.1

/-- Python whitespace characters recognised by `str.split()` and
`str.strip()` (ASCII fragment). -/
def py_isspace (c : Char) : Bool :=
  c = ' ' || c = '\t' || c = '\n' || c = '\r' || c = '\x0b' || c = '\x0c'

/-- Helper counting maximal non-whitespace runs; the flag records whether
the scan is currently inside a word. -/
def countWordsAux : List Char → Bool → Nat
  | [], _ => 0
  | c :: rest, inWord =>
    if py_isspace c then countWordsAux rest false
    else (if inWord then 0 else 1) + countWordsAux rest true

/-- Token count of Python `len(s.split())`: the number of
whitespace-separated tokens. -/
def py_split_len (s : String) : Nat := countWordsAux s.toList false

/-- Python `s.strip()`. -/
def py_strip (s : String) : String :=
  String.mk (((s.toList.dropWhile py_isspace).reverse.dropWhile py_isspace).reverse)

/-- Word count computed by `EditorAgent._check_length` (`agents/editor.py`
lines 234-245): whitespace-split token count over the introduction, every
section content, and the summary (each behind the source's truthiness
guard). -/
def chapter_word_count (chapter : Chapter) : Nat :=
  (if chapter.introduction ≠ "" then py_split_len chapter.introduction else 0)
  + chapter.sections.foldl
      (fun acc s => acc + (if s.content ≠ "" then py_split_len s.content else 0)) 0
  + (if chapter.summary ≠ "" then py_split_len chapter.summary else 0)

/-- Length check `EditorAgent._check_length` (`agents/editor.py` lines
226-260).  The band bounds `int(target_length * 0.7)` and
`int(target_length * 1.3)` are modelled as `7 * t / 10` and `13 * t / 10`
in `Nat`; at the targets exercised by the claims (2000) this agrees with
Python's float computation (1400 and 2600). -/
def _check_length (chapter : Chapter) (target_length : Nat) : List String :=
  let word_count := chapter_word_count chapter
  let min_length := target_length * 7 / 10
  let max_length := target_length * 13 / 10
  if word_count < min_length then
    ["Chapter is too short: " ++ toString word_count ++ " words (target: "
      ++ toString target_length ++ ")"]
  else if word_count > max_length then
    ["Chapter is too long: " ++ toString word_count ++ " words (target: "
      ++ toString target_length ++ ")"]
  else []

/-- The `"\n\n".join(filter(None, content_parts))` aggregation used by the
editor checks. -/
def joined_content (parts : List String) : String :=
  String.intercalate "\n\n" (parts.filter (· ≠ ""))

/-- Decoding of an issue/suggestion array from a capability reply: the
`re.search(r'\[.*\]', response, re.DOTALL)` span fed to `json.loads`,
keeping the first `limit` entries when the result is a list; every failure
is caught and yields no entries.  A non-string list element is carried by
Python as-is; only its rendering differs here, never the count. -/
def parse_issue_list (response : String) (limit : Nat) : List String :=
  match bracketSpan response with
  | none => []
  | some span =>
    match json_loads span with
    | some (.arr found) => (found.take limit).map Json.asPyStr
    | _ => []

/-- Coherence check `EditorAgent._check_coherence` (`agents/editor.py`
lines 128-173); `gen prompt system_prompt` models
`self.llm_client.generate_text`. -/
def _check_coherence (gen : String → String → String) (chapter : Chapter) : List String :=
  let content_parts := [chapter.introduction] ++ chapter.sections.map Section.content
    ++ [chapter.summary]
  let full_content := joined_content content_parts
  if py_strip full_content = "" then ["Chapter has no content"]
  else
    let system_prompt := "You are an expert editor reviewing content for coherence.\nCheck for:\n1. Logical flow between paragraphs\n2. Contradictions within the text\n3. Undefined terms used without explanation\n4. Broken progression of ideas\n5. Repetitive content\n\nReturn issues as JSON array: [\"issue1\", \"issue2\", ...]\nIf no issues, return: []"
    let prompt := "Review this chapter for coherence issues:\n\nChapter: " ++ chapter.title
      ++ "\n\nContent:\n" ++ full_content.take 4000
      ++ "  # Limit to avoid token limits\n\nReturn issues as JSON array:"
    parse_issue_list (gen prompt system_prompt) 5

/-- Expected-style description used by the complexity check. -/
def complexity_description : ComplexityLevel → String
  | .BEGINNER => "Simple language, no jargon, all terms explained"
  | .INTERMEDIATE => "Moderate technical language, some assumed knowledge"
  | .ADVANCED => "Technical language, assumes solid foundation"
  | .EXPERT => "Expert terminology, advanced concepts"

/-- Complexity check `EditorAgent._check_complexity` (`agents/editor.py`
lines 175-224). -/
def _check_complexity (gen : String → String → String) (chapter : Chapter)
    (target_complexity : ComplexityLevel) : List String :=
  let content_parts := [chapter.introduction] ++ chapter.sections.map Section.content
  let full_content := joined_content content_parts
  if py_strip full_content = "" then []
  else
    let system_prompt := "You are an expert editor checking content complexity.\nAnalyze if the content matches the target complexity level.\nReturn issues as JSON array: [\"issue1\", \"issue2\", ...]\nIf complexity is appropriate, return: []"
    let prompt := "Analyze if this content matches the target complexity:\n\nTarget Complexity: "
      ++ target_complexity.value ++ "\nExpected: " ++ complexity_description target_complexity
      ++ "\n\nContent sample:\n" ++ full_content.take 3000
      ++ "\n\nReturn complexity issues as JSON array:"
    parse_issue_list (gen prompt system_prompt) 3

/-- Topic-adherence check `EditorAgent._check_topic_adherence`
(`agents/editor.py` lines 262-307). -/
def _check_topic_adherence (gen : String → String → String) (chapter : Chapter)
    (chapter_bp : ChapterBlueprint) (blueprint : BookBlueprint) : List String :=
  let content_parts := [chapter.introduction] ++ chapter.sections.map Section.content
  let full_content := joined_content content_parts
  if py_strip full_content = "" then []
  else
    let system_prompt := "You are an expert editor checking topic adherence.\nIdentify any sections that deviate from the intended topic.\nReturn issues as JSON array: [\"issue1\", \"issue2\", ...]\nIf content stays on topic, return: []"
    let prompt := "Check if this chapter stays on topic:\n\nBook Topic: " ++ blueprint.title
      ++ "\nChapter Topic: " ++ chapter_bp.title
      ++ "\nChapter Description: " ++ chapter_bp.description
      ++ "\nExpected Key Concepts: " ++ String.intercalate ", " chapter_bp.key_concepts
      ++ "\n\nContent sample:\n" ++ full_content.take 3000
      ++ "\n\nReturn topic deviation issues as JSON array:"
    parse_issue_list (gen prompt system_prompt) 3

/-- Suggestion generation `EditorAgent._generate_suggestions`
(`agents/editor.py` lines 309-340). -/
def _generate_suggestions (gen : String → String → String) (chapter : Chapter)
    (issues : List String) : List String :=
  if issues.isEmpty then []
  else
    let system_prompt := "You are an expert editor providing actionable suggestions.\nFor each issue, provide a specific, actionable suggestion for improvement.\nReturn suggestions as JSON array: [\"suggestion1\", \"suggestion2\", ...]"
    let prompt := "Generate specific suggestions to fix these issues in Chapter "
      ++ toString chapter.number ++ ":\n\nIssues:\n"
      ++ String.intercalate "\n" (issues.map (fun issue => "- " ++ issue))
      ++ "\n\nReturn actionable suggestions as JSON array:"
    let suggestions := parse_issue_list (gen prompt system_prompt) 5
    if suggestions.isEmpty then
      ["Review and revise content addressing the identified issues"]
    else suggestions

/-- Chapter review `EditorAgent.review_chapter` (`agents/editor.py` lines
68-126): runs the four checks, aggregates the issues, sets `passed`, asks
for suggestions when failing, and updates the chapter blueprint's
`review_status` and `review_notes` in place (returned here as the second
component). -/
def review_chapter (gen : String → String → String) (chapter : Chapter)
    (chapter_bp : ChapterBlueprint) (blueprint : BookBlueprint) :
    ReviewResult × ChapterBlueprint :=
  let coherence_issues := _check_coherence gen chapter
  let complexity_issues := _check_complexity gen chapter chapter_bp.complexity_level
  let length_issues := _check_length chapter chapter_bp.estimated_length
  let topic_issues := _check_topic_adherence gen chapter chapter_bp blueprint
  let all_issues := coherence_issues ++ complexity_issues ++ length_issues ++ topic_issues
  let passed := all_issues.length == 0
  let result : ReviewResult :=
    { passed := passed,
      chapter_number := chapter.number,
      issues := all_issues,
      suggestions := if passed then [] else _generate_suggestions gen chapter all_issues,
      coherence_issues := coherence_issues,
      complexity_issues := complexity_issues,
      length_issues := length_issues,
      topic_deviation_issues := topic_issues }
  let bp' := { chapter_bp with
    review_status := if passed then ReviewStatus.PASSED else ReviewStatus.NEEDS_REPAIR,
    review_notes := all_issues }
  (result, bp')

/-- Oracle bundle for the agent calls that consult the Text Generation
Capability.  Each field models one collaborator invoked by
`AgenticBookGenerator`; quantifying over the bundle quantifies over every
possible generated text.  All collaborators are total (the source's
pervasive soft-fail policy means they return rather than raise in the
modelled runs). -/
structure Agents where
  interpret : String → UserPrompt
  plan : UserPrompt → BookBlueprint
  author_preface : BookBlueprint → String
  write_chapter : ChapterBlueprint → BookBlueprint → Chapter
  review : Book → BookBlueprint → List ReviewResult
  repair_chapter : Chapter → ChapterBlueprint → BookBlueprint → List String → Chapter
  formatter_preface : Book → BookBlueprint → String
  toc : Book → Json
  glossary : Book → BookBlueprint → Json
  book_index : Book → Json

/-- Repair-needed predicate `AgenticBookGenerator._needs_repair`
(`agentic.py` lines 249-251). -/
def _needs_repair (review_results : List ReviewResult) : Bool :=
  review_results.any (fun result => !result.passed)

/-- In-place update `book.chapters[i] = repaired` at the first index whose
chapter number matches (`agentic.py` lines 285-288). -/
def replaceFirstChapter : List Chapter → Nat → Chapter → List Chapter
  | [], _, _ => []
  | ch :: rest, num, repaired =>
    if ch.number == num then repaired :: rest
    else ch :: replaceFirstChapter rest num repaired

/-- One iteration of the result loop in
`AgenticBookGenerator._repair_book` (`agentic.py` lines 260-288): a
failing result whose chapter and chapter blueprint both exist gets its
chapter repaired and replaced in the book by number. -/
def repair_step (repair_chapter : Chapter → ChapterBlueprint → BookBlueprint → List String → Chapter)
    (blueprint : BookBlueprint) (bk : Book) (result : ReviewResult) : Book :=
  if result.passed then bk
  else
    match bk.get_chapter result.chapter_number,
          blueprint.chapters.find? (fun bp => bp.number == result.chapter_number) with
    | some chapter, some chapter_bp =>
      let repaired := repair_chapter chapter chapter_bp blueprint result.issues
      { bk with chapters := replaceFirstChapter bk.chapters chapter.number repaired }
    | _, _ => bk

/-- Repair phase `AgenticBookGenerator._repair_book` (`agentic.py` lines
253-290): for every failing review result whose chapter and chapter
blueprint both exist, repair that chapter and replace it in the book by
number; the (mutated) input book is returned. -/
def _repair_book (repair_chapter : Chapter → ChapterBlueprint → BookBlueprint → List String → Chapter)
    (book : Book) (blueprint : BookBlueprint) (review_results : List ReviewResult) : Book :=
  review_results.foldl (repair_step repair_chapter blueprint) book

/-- Writing phase `AgenticBookGenerator._write_book` (`agentic.py` lines
188-219): build the book from the blueprint, generate the preface, write
each chapter in blueprint order (tallying `chapters_written`), and store
the serialized blueprint in the book metadata.  Progress reporting is
logging-only and not modelled. -/
def _write_book (A : Agents) (blueprint : BookBlueprint) (st : AgenticState) (now : Nat) :
    Book × AgenticState :=
  let book0 : Book :=
    { title := blueprint.title,
      author := blueprint.author,
      description := blueprint.description,
      target_audience := blueprint.target_audience,
      programming_language := blueprint.programming_language,
      created_at := now, updated_at := now }
  let book1 := { book0 with preface := A.author_preface blueprint }
  let step := fun (acc : Book × AgenticState) (chapter_bp : ChapterBlueprint) =>
    let chapter := A.write_chapter chapter_bp blueprint
    (acc.1.add_chapter chapter now,
     { acc.2 with chapters_written := acc.2.chapters_written + 1 })
  let acc1 := blueprint.chapters.foldl step (book1, st)
  ({ acc1.1 with metadata := dictSet acc1.1.metadata "blueprint" (.obj blueprint.to_dict) },
   acc1.2)

/-- Review phase `AgenticBookGenerator._review_book` (`agentic.py` lines
221-247): the per-chapter editor interaction is the `review` oracle (the
claims stub it); the state's `chapters_reviewed` tally is one per result. -/
def _review_book (A : Agents) (book : Book) (blueprint : BookBlueprint)
    (st : AgenticState) : List ReviewResult × AgenticState :=
  let results := A.review book blueprint
  (results, { st with chapters_reviewed := results.length })

/-- Format phase `AgenticBookGenerator._format_book` (`agentic.py` lines
292-308). -/
def _format_book (A : Agents) (book : Book) (blueprint : BookBlueprint) : Book :=
  let book1 :=
    if book.preface = "" then { book with preface := A.formatter_preface book blueprint }
    else book
  let objs : Json := .arr (blueprint.learning_objectives.map (fun obj => .str obj.description))
  let prior : Json := .arr (blueprint.assumed_prior_knowledge.map Json.str)
  let book2 := { book1 with metadata := dictSet book1.metadata "learning_objectives" objs }
  { book2 with metadata := dictSet book2.metadata "assumed_prior_knowledge" prior }

/-- Python `a or b` on strings (empty string is falsy). -/
def pyOrStr (a b : String) : String := if a = "" then b else a

/-- Model of `os.path.splitext(path)[0]`: the path up to the last dot of
its final component (a leading dot of the component is not an extension
separator). -/
def splitext_base (path : String) : String :=
  let cs := path.toList
  match cs.reverse.findIdx? (fun c => c = '.' || c = '/') with
  | some k =>
    let i := cs.length - 1 - k
    if cs.get? i = some '.' && i ≠ 0 && cs.get? (i - 1) ≠ some '/' then
      String.mk (cs.take i)
    else path
  | none => path

/-- Extension fix-up `FormatterAgent._ensure_extension`
(`agents/formatter.py` lines 222-239). -/
def _ensure_extension (path format_type : String) : String :=
  let expected_ext :=
    match format_type with
    | "html" => ".html"
    | "pdf" => ".pdf"
    | "pdf-pandoc" => ".pdf"
    | "epub" => ".epub"
    | "markdown" => ".md"
    | _ => ".pdf"
  if !path.endsWith expected_ext then splitext_base path ++ expected_ext
  else path

/-- Export entry `FormatterAgent.format_book` (`agents/formatter.py` lines
53-93): fills front matter and metadata and returns the output path; the
directory creation and byte-level export are file I/O and not modelled. -/
def formatter_format_book (A : Agents) (book : Book) (blueprint : BookBlueprint)
    (output_path : String) (output_format : Option String) : Book × String :=
  let format_type := pyOrStr (output_format.getD "") (pyOrStr blueprint.output_format "pdf")
  let book1 :=
    if book.preface = "" then { book with preface := A.formatter_preface book blueprint }
    else book
  let book2 := { book1 with metadata := dictSet book1.metadata "table_of_contents" (A.toc book1) }
  let book3 :=
    if blueprint.programming_language ≠ "" || py_in "technical" (py_lower blueprint.tone) then
      { book2 with metadata := dictSet book2.metadata "glossary" (A.glossary book2 blueprint) }
    else book2
  let book4 := { book3 with metadata := dictSet book3.metadata "index" (A.book_index book3) }
  (book4, _ensure_extension output_path format_type)

/-- Guarded transition `AgenticBookGenerator._transition` (`agentic.py`
lines 166-172): raises `RuntimeError` on an illegal transition. -/
def _transition (st : AgenticState) (new_state : LifecycleState) (now : Nat) :
    Except PyErr AgenticState :=
  let r := st.transition_to new_state now
  if r.1 then .ok r.2
  else .error (.runtimeError ("Invalid state transition: " ++ st.current_state.value
    ++ " -> " ++ new_state.value))

/-- The REVIEW-REPAIR loop of `AgenticBookGenerator.generate_from_prompt`
(`agentic.py` lines 121-133), returning the final book, review results,
state, and iteration count. -/
def repairLoop (A : Agents) (blueprint : BookBlueprint) (now max_repair_iterations : Nat)
    (book : Book) (review_results : List ReviewResult) (st : AgenticState)
    (repair_iteration : Nat) :
    Except PyErr (Book × List ReviewResult × AgenticState × Nat) :=
  if h : _needs_repair review_results ∧ repair_iteration < max_repair_iterations then do
    let st1 ← _transition st .REPAIR now
    let book1 := _repair_book A.repair_chapter book blueprint review_results
    let st2 := { st1 with repair_iterations := repair_iteration + 1 }
    let st3 ← _transition st2 .REVIEW now
    let rr := _review_book A book1 blueprint st3
    let st4 := { rr.2 with review_results := rr.1 }
    repairLoop A blueprint now max_repair_iterations book1 rr.1 st4 (repair_iteration + 1)
  else .ok (book, review_results, st, repair_iteration)
termination_by max_repair_iterations - repair_iteration
decreasing_by omega

/-- Main entry `AgenticBookGenerator.generate_from_prompt` (`agentic.py`
lines 68-164).  `now` models `datetime.now()`.  The `except` handler that
records the error on the state, forces FAILED, and re-raises is modelled
by the propagated `Except` error. -/
def generate_from_prompt (A : Agents) (prompt output_path : String)
    (max_repair_iterations : Nat) (now : Nat) : Except PyErr (Book × AgenticState) := do
  let st0 : AgenticState :=
    { raw_prompt := prompt, output_path := output_path,
      max_repair_iterations := max_repair_iterations, started_at := now }
  let st1 ← _transition st0 .INTERPRET now
  let user_prompt := A.interpret prompt
  let st2 := { st1 with user_prompt := some user_prompt }
  let st3 ← _transition st2 .PLAN now
  let blueprint := A.plan user_prompt
  let st4 := { st3 with blueprint := some blueprint }
  let st5 ← _transition st4 .WRITE now
  let wb := _write_book A blueprint st5 now
  let st6 ← _transition wb.2 .REVIEW now
  let rr := _review_book A wb.1 blueprint st6
  let st7 := { rr.2 with review_results := rr.1 }
  let loop ← repairLoop A blueprint now max_repair_iterations wb.1 rr.1 st7 0
  let book2 := loop.1
  let results2 := loop.2.1
  let st8 := loop.2.2.1
  let book3 :=
    if _needs_repair results2 then
      { book2 with metadata := dictSet book2.metadata "unresolved_review_issues" (.bool true) }
    else book2
  let st9 ← _transition st8 .FORMAT now
  let book4 := _format_book A book3 blueprint
  let st10 ← _transition st9 .EXPORT now
  let fb := formatter_format_book A book4 blueprint output_path (some blueprint.output_format)
  let st11 := { st10 with output_path := fb.2 }
  let st12 ← _transition st11 .COMPLETE now
  .ok (fb.1, st12)

/-- The complete legal-transition table of specification section 4.1,
written out as the explicit list of legal (source, target) pairs. -/
def specLegalPairs : List (LifecycleState × LifecycleState) :=
  [(.INIT, .INTERPRET), (.INIT, .FAILED),
   (.INTERPRET, .PLAN), (.INTERPRET, .FAILED),
   (.PLAN, .WRITE), (.PLAN, .FAILED),
   (.WRITE, .REVIEW), (.WRITE, .FAILED),
   (.REVIEW, .FORMAT), (.REVIEW, .REPAIR), (.REVIEW, .FAILED),
   (.REPAIR, .REVIEW), (.REPAIR, .FAILED),
   (.FORMAT, .EXPORT), (.FORMAT, .FAILED),
   (.EXPORT, .COMPLETE), (.EXPORT, .FAILED)]

/-- Character sequence of `n` single-letter words separated by single
spaces (test-input builder for the length check). -/
def mkWordsChars : Nat → List Char
  | 0 => []
  | 1 => ['w']
  | n + 2 => 'w' :: ' ' :: mkWordsChars (n + 1)

/-- A string of exactly `n` whitespace-separated words. -/
def mkWords (n : Nat) : String := String.mk (mkWordsChars n)

/-- A chapter whose entire content is `n` words of introduction. -/
def mk_len_chapter (n : Nat) : Chapter :=
  { title := "c", number := 1, introduction := mkWords n }

/-- A capability reply carrying a parsed chapter array of three chapter
records whose first two chapters introduce three key concepts each
(exercises the prerequisite accumulation). -/
def planner_response_sample : String :=
  "[\x7b\"title\": \"A\", \"key_concepts\": [\"c1\", \"c2\", \"c3\"]\x7d, \x7b\"title\": \"B\", \"key_concepts\": [\"c4\", \"c5\", \"c6\"]\x7d, \x7b\"title\": \"C\", \"key_concepts\": []\x7d]"

/-- Erasure of the unserialized `chapter_number` field of an objective
(what one round trip through `to_dict`/`from_dict` does to it). -/
def stripObjNum (o : LearningObjective) : LearningObjective :=
  { o with chapter_number := none }

/-- Objective-field erasure lifted to a chapter blueprint. -/
def stripChapterObjNums (c : ChapterBlueprint) : ChapterBlueprint :=
  { c with learning_objectives := c.learning_objectives.map stripObjNum }

/-- Objective-field erasure lifted to a book blueprint. -/
def stripBookObjNums (b : BookBlueprint) : BookBlueprint :=
  { b with learning_objectives := b.learning_objectives.map stripObjNum,
           chapters := b.chapters.map stripChapterObjNums }

/-- A blueprint carrying a learning objective bound to a chapter number
(exercises the serialization of `LearningObjective.chapter_number`). -/
def bb_counter : BookBlueprint :=
  { title := "T", learning_objectives := [{ description := "d", chapter_number := some 1 }] }

/-- A two-chapter book for exercising the repair frame property. -/
def repair_sample_book : Book :=
  { title := "B", author := "a",
    chapters := [{ title := "A", number := 1 }, { title := "Bch", number := 2 }] }

/-- A blueprint holding only chapter 1's blueprint. -/
def repair_sample_bp : BookBlueprint :=
  { title := "T",
    chapters := [{ number := 1, title := "c1", description := "",
                   complexity_level := .BEGINNER, estimated_length := 100 }] }

/-- A review outcome failing chapter 1 only. -/
def repair_sample_results : List ReviewResult :=
  [{ passed := false, chapter_number := 1 }]

/-- A repair behaviour that visibly rewrites the chapter title. -/
def repair_sample_fix : Chapter → ChapterBlueprint → BookBlueprint → List String → Chapter :=
  fun ch _ _ _ => { ch with title := "repaired" }

/-- A concrete agent bundle whose review step always fails chapter 1
(the stub of the repair-loop-bound property). -/
def stub_agents : Agents :=
  { interpret := fun raw => { topic := raw },
    plan := fun up => { title := up.topic },
    author_preface := fun _ => "p",
    write_chapter := fun cbp _ => { title := cbp.title, number := cbp.number },
    review := fun _ _ => [{ passed := false, chapter_number := 1 }],
    repair_chapter := fun ch _ _ _ => ch,
    formatter_preface := fun _ _ => "p",
    toc := fun _ => Json.null,
    glossary := fun _ _ => Json.null,
    book_index := fun _ => Json.null }

/-! ## Theorems -/

/-- Closed form of `AgenticState.transition_to` in terms of the
specification's legality table. -/
theorem transition_to_eq (s : AgenticState) (t : LifecycleState) (now : Nat) :
    s.transition_to t now =
      if (s.current_state, t) ∈ specLegalPairs then
        (true, { s with current_state := t, completed_at := if t = LifecycleState.COMPLETE then some now else s.completed_at })
      else (false, s) := by
  have key : ∀ c u : LifecycleState,
      ((allowed_transitions c).contains u) = decide ((c, u) ∈ specLegalPairs) := by decide
  simp only [AgenticState.transition_to, AgenticState.can_transition_to,
    key s.current_state t]
  by_cases h : (s.current_state, t) ∈ specLegalPairs
  · by_cases ht : t = LifecycleState.COMPLETE <;> simp [h, ht]
  · simp [h]

/-- C1: `AgenticState.transition_to t` from state `s` succeeds (returns
true, setting `current_state := t`) exactly when `(s, t)` is in the
section-4.1 legality table; on an illegal pair it returns false and leaves
the record unchanged; COMPLETE and FAILED are absorbing (no transition out
succeeds, including to FAILED); from every non-terminal state the
transition to FAILED succeeds and does not stamp `completed_at`; a
successful transition to COMPLETE stamps `completed_at := now`, and a
transition to any other target leaves `completed_at` unchanged. -/
theorem transition_to_contract (s : AgenticState) (t : LifecycleState) (now : Nat) :
    ((s.transition_to t now).1 = true ↔ (s.current_state, t) ∈ specLegalPairs)
    ∧ ((s.transition_to t now).1 = false → (s.transition_to t now).2 = s)
    ∧ (s.current_state = .COMPLETE ∨ s.current_state = .FAILED →
        (s.transition_to t now).1 = false)
    ∧ (s.current_state ≠ .COMPLETE → s.current_state ≠ .FAILED →
        (s.transition_to LifecycleState.FAILED now).1 = true
        ∧ (s.transition_to LifecycleState.FAILED now).2.completed_at = s.completed_at)
    ∧ ((s.transition_to t now).1 = true → t = .COMPLETE →
        (s.transition_to t now).2.completed_at = some now)
    ∧ (t ≠ .COMPLETE → (s.transition_to t now).2.completed_at = s.completed_at)
    ∧ ((s.transition_to t now).1 = true → (s.transition_to t now).2 = { s with current_state := t, completed_at := if t = LifecycleState.COMPLETE then some now else s.completed_at }) := by
  have hterm : ∀ u : LifecycleState, (LifecycleState.COMPLETE, u) ∉ specLegalPairs
      ∧ (LifecycleState.FAILED, u) ∉ specLegalPairs := by decide
  have hfail : ∀ c : LifecycleState, c ≠ .COMPLETE → c ≠ .FAILED →
      (c, LifecycleState.FAILED) ∈ specLegalPairs := by decide
  simp only [transition_to_eq]
  refine ⟨?_, ?_, ?_, ?_, ?_, ?_, ?_⟩
  · by_cases h : (s.current_state, t) ∈ specLegalPairs <;> simp [h]
  · by_cases h : (s.current_state, t) ∈ specLegalPairs <;> simp [h]
  · intro hc
    have hnot : (s.current_state, t) ∉ specLegalPairs := by
      rcases hc with hc | hc <;> rw [hc]
      · exact (hterm t).1
      · exact (hterm t).2
    simp [hnot]
  · intro h1 h2
    have hm := hfail s.current_state h1 h2
    simp [hm]
  · by_cases h : (s.current_state, t) ∈ specLegalPairs <;> simp [h]
    intro ht
    simp [ht]
  · intro ht
    by_cases h : (s.current_state, t) ∈ specLegalPairs <;> simp [h, ht]
  · by_cases h : (s.current_state, t) ∈ specLegalPairs <;> simp [h]

/-- Witness for C1: from EXPORT the transition to COMPLETE succeeds,
moves `current_state` to COMPLETE, and stamps the completion time, and
from the terminal COMPLETE state even the transition to FAILED fails. -/
theorem transition_to_contract_witness :
    ((({ current_state := .EXPORT } : AgenticState).transition_to .COMPLETE 42).2.completed_at
      = some 42)
    ∧ ((({ current_state := .EXPORT } : AgenticState).transition_to .COMPLETE 42).2.current_state
      = .COMPLETE)
    ∧ ((({ current_state := .COMPLETE } : AgenticState).transition_to .FAILED 7).1 = false) :=
  ⟨(transition_to_contract { current_state := .EXPORT } .COMPLETE 42).2.2.2.2.1
      (by decide) rfl,
   by
     rw [(transition_to_contract { current_state := .EXPORT } .COMPLETE 42).2.2.2.2.2.2
       (by decide)],
   (transition_to_contract { current_state := .COMPLETE } .FAILED 7).2.2.1 (Or.inl rfl)⟩

/-- C5: the chapter complexity progression is monotonically non-decreasing
in the chapter number under BEGINNER < INTERMEDIATE < ADVANCED < EXPERT;
a book whose base complexity is EXPERT never assigns a chapter a
complexity below INTERMEDIATE; and for base ADVANCED with 10 chapters,
chapter 1's complexity is at most chapter 10's. -/
theorem chapter_complexity_progression (N : Nat) (base : ComplexityLevel) (i j : Nat)
    (hN : 1 ≤ N) (hi : 1 ≤ i) (hij : i ≤ j) (hj : j ≤ N) :
    ((_get_chapter_complexity i N base).rank ≤ (_get_chapter_complexity j N base).rank)
    ∧ (∀ k M : Nat, 1 ≤ (_get_chapter_complexity k M .EXPERT).rank)
    ∧ ((_get_chapter_complexity 1 10 .ADVANCED).rank
        ≤ (_get_chapter_complexity 10 10 .ADVANCED).rank) := by
  have hN' : (0 : ℚ) < (N : ℚ) := by exact_mod_cast hN
  have hmono : (i : ℚ) / (N : ℚ) ≤ (j : ℚ) / (N : ℚ) := by
    have hcast : (i : ℚ) ≤ (j : ℚ) := by exact_mod_cast hij
    gcongr
  refine ⟨?_, ?_, ?_⟩
  · cases base
    case BEGINNER => simp [_get_chapter_complexity]
    case INTERMEDIATE =>
      simp only [_get_chapter_complexity]
      split_ifs <;> simp only [ComplexityLevel.rank] <;>
        first
          | omega
          | (exfalso; norm_num at *; linarith)
    case ADVANCED =>
      simp only [_get_chapter_complexity]
      split_ifs <;> simp only [ComplexityLevel.rank] <;>
        first
          | omega
          | (exfalso; norm_num at *; linarith)
    case EXPERT =>
      simp only [_get_chapter_complexity]
      split_ifs <;> simp only [ComplexityLevel.rank] <;>
        first
          | omega
          | (exfalso; norm_num at *; linarith)
  · intro k M
    simp only [_get_chapter_complexity]
    split_ifs <;> simp [ComplexityLevel.rank]
  · norm_num [_get_chapter_complexity, ComplexityLevel.rank]

/-- Witness for C5 at base ADVANCED, 10 chapters, chapters 3 and 7. -/
theorem chapter_complexity_progression_witness :
    ((1 : Nat) ≤ 10 ∧ (1 : Nat) ≤ 3 ∧ (3 : Nat) ≤ 7 ∧ (7 : Nat) ≤ 10)
    ∧ ((_get_chapter_complexity 3 10 .ADVANCED).rank
        ≤ (_get_chapter_complexity 7 10 .ADVANCED).rank) :=
  ⟨⟨by decide, by decide, by decide, by decide⟩,
   (chapter_complexity_progression 10 .ADVANCED 3 7 (by decide) (by decide) (by decide)
      (by decide)).1⟩

/-- Helper: a `List.any` of keyword tests is false when every keyword
fails. -/
theorem any_keyword_false (L : List String) (a : String)
    (h : ∀ w ∈ L, ¬ (py_in w a = true)) : (L.any fun w => py_in w a) = false := by
  cases hx : L.any fun w => py_in w a
  · rfl
  · obtain ⟨w, hw, hpw⟩ := List.any_eq_true.mp hx
    exact absurd hpw (h w hw)

/-- Counterexample for C4: an audience that is exactly "expert" is
classified ADVANCED, not EXPERT, because "expert" also occurs in the
advanced keyword list which is tested first. -/
theorem infer_complexity_expert_counterexample :
    _infer_complexity { topic := "t", audience := "expert" } = ComplexityLevel.ADVANCED
    ∧ ComplexityLevel.ADVANCED ≠ ComplexityLevel.EXPERT := by
  constructor
  · decide
  · decide

/-- C4 (amended): with no explicit complexity, the Planner infers the
level by case-insensitive substring matching of the audience against the
fixed keyword table, first matching category winning in table order —
"beginner"/"kids" give BEGINNER; "advanced"/"senior" and also "expert"
give ADVANCED (the advanced row contains "expert" and is tested first);
"researcher" gives EXPERT only when no beginner or advanced keyword
matches; no keyword at all gives INTERMEDIATE; an explicit
complexity_level is used unchanged. -/
theorem infer_complexity_contract (p : UserPrompt) (c : ComplexityLevel) :
    ((py_in "beginner" (py_lower p.audience) = true ∨ py_in "kids" (py_lower p.audience) = true) →
      _infer_complexity p = .BEGINNER)
    ∧ ((∀ w ∈ ["beginner", "new", "intro", "basic", "children", "kids"],
          ¬ (py_in w (py_lower p.audience) = true)) →
        (py_in "advanced" (py_lower p.audience) = true ∨ py_in "senior" (py_lower p.audience) = true
          ∨ py_in "expert" (py_lower p.audience) = true) →
        _infer_complexity p = .ADVANCED)
    ∧ ((∀ w ∈ ["beginner", "new", "intro", "basic", "children", "kids",
               "advanced", "senior", "expert", "professional"],
          ¬ (py_in w (py_lower p.audience) = true)) →
        py_in "researcher" (py_lower p.audience) = true →
        _infer_complexity p = .EXPERT)
    ∧ ((∀ w ∈ ["beginner", "new", "intro", "basic", "children", "kids",
               "advanced", "senior", "expert", "professional", "specialist", "researcher"],
          ¬ (py_in w (py_lower p.audience) = true)) →
        _infer_complexity p = .INTERMEDIATE)
    ∧ (p.complexity_level = some c → create_blueprint_complexity p = c)
    ∧ (p.complexity_level = none → create_blueprint_complexity p = _infer_complexity p) := by
  refine ⟨?_, ?_, ?_, ?_, ?_, ?_⟩
  · intro h
    have hany : (["beginner", "new", "intro", "basic", "children", "kids"].any
        fun w => py_in w (py_lower p.audience)) = true := by
      rcases h with h | h
      · exact List.any_eq_true.mpr ⟨"beginner", by simp, h⟩
      · exact List.any_eq_true.mpr ⟨"kids", by simp, h⟩
    simp [_infer_complexity, hany]
  · intro hnone h
    have h1 : (["beginner", "new", "intro", "basic", "children", "kids"].any
        fun w => py_in w (py_lower p.audience)) = false := any_keyword_false _ _ hnone
    have h2 : (["advanced", "senior", "expert", "professional"].any
        fun w => py_in w (py_lower p.audience)) = true := by
      rcases h with h | h | h
      · exact List.any_eq_true.mpr ⟨"advanced", by simp, h⟩
      · exact List.any_eq_true.mpr ⟨"senior", by simp, h⟩
      · exact List.any_eq_true.mpr ⟨"expert", by simp, h⟩
    simp [_infer_complexity, h1, h2]
  · intro hnone h
    have h1 : (["beginner", "new", "intro", "basic", "children", "kids"].any
        fun w => py_in w (py_lower p.audience)) = false :=
      any_keyword_false _ _ (fun w hw => hnone w (by simp at hw ⊢; tauto))
    have h2 : (["advanced", "senior", "expert", "professional"].any
        fun w => py_in w (py_lower p.audience)) = false :=
      any_keyword_false _ _ (fun w hw => hnone w (by simp at hw ⊢; tauto))
    have h3 : (["expert", "specialist", "researcher"].any
        fun w => py_in w (py_lower p.audience)) = true :=
      List.any_eq_true.mpr ⟨"researcher", by simp, h⟩
    simp [_infer_complexity, h1, h2, h3]
  · intro hnone
    have h1 : (["beginner", "new", "intro", "basic", "children", "kids"].any
        fun w => py_in w (py_lower p.audience)) = false :=
      any_keyword_false _ _ (fun w hw => hnone w (by simp at hw ⊢; tauto))
    have h2 : (["advanced", "senior", "expert", "professional"].any
        fun w => py_in w (py_lower p.audience)) = false :=
      any_keyword_false _ _ (fun w hw => hnone w (by simp at hw ⊢; tauto))
    have h3 : (["expert", "specialist", "researcher"].any
        fun w => py_in w (py_lower p.audience)) = false :=
      any_keyword_false _ _ (fun w hw => hnone w (by simp at hw ⊢; tauto))
    simp [_infer_complexity, h1, h2, h3]
  · intro h
    simp [create_blueprint_complexity, h]
  · intro h
    simp [create_blueprint_complexity, h]

/-- Witness for C4's amended contract: audience "researchers" infers
EXPERT, and an explicit BEGINNER request is used unchanged. -/
theorem infer_complexity_contract_witness :
    _infer_complexity { topic := "t", audience := "researchers" } = .EXPERT
    ∧ create_blueprint_complexity
        { topic := "t", audience := "researchers", complexity_level := some .BEGINNER }
        = .BEGINNER :=
  ⟨(infer_complexity_contract { topic := "t", audience := "researchers" } .BEGINNER).2.2.1
      (by decide) (by decide),
   (infer_complexity_contract
      { topic := "t", audience := "researchers", complexity_level := some .BEGINNER }
      .BEGINNER).2.2.2.2.1 rfl⟩

/-- Helper: `mkWordsChars n` contains exactly `n` whitespace-separated
words. -/
theorem countWordsAux_mkWordsChars : ∀ n, countWordsAux (mkWordsChars n) false = n
  | 0 => rfl
  | 1 => by decide
  | (m + 2) => by
    have h1 : py_isspace 'w' = false := by decide
    have h2 : py_isspace ' ' = true := by decide
    have ih := countWordsAux_mkWordsChars (m + 1)
    have hstep : mkWordsChars (m + 2) = 'w' :: ' ' :: mkWordsChars (m + 1) := rfl
    rw [hstep]
    simp [countWordsAux, h1, h2, ih]
    omega

/-- Helper: the word count of `mk_len_chapter n` is exactly `n`. -/
theorem chapter_word_count_mk (n : Nat) : chapter_word_count (mk_len_chapter n) = n := by
  match n with
  | 0 => decide
  | m + 1 =>
    have hne : mkWords (m + 1) ≠ "" := by
      simp only [mkWords, ne_eq, String.ext_iff]
      cases m <;> simp [mkWordsChars]
    have hlist : (mkWords (m + 1)).toList = mkWordsChars (m + 1) := rfl
    simp only [chapter_word_count, mk_len_chapter, py_split_len, hlist, if_pos hne]
    simp [countWordsAux_mkWordsChars]

/-- C6: the Editor's length check compares the whitespace-split word count
(introduction + section contents + summary) against the band
`[int(0.7*target), int(1.3*target)]` with strict inequalities: below the
band it emits exactly the one "too short" issue naming both counts, above
the band exactly the one "too long" issue, and inside the band (bounds
included) no issue; for target 2000 the bounds are exactly 1400 and 2600. -/
theorem check_length_contract (chapter : Chapter) (target_length : Nat) :
    (chapter_word_count chapter < target_length * 7 / 10 →
      _check_length chapter target_length =
        ["Chapter is too short: " ++ toString (chapter_word_count chapter)
          ++ " words (target: " ++ toString target_length ++ ")"])
    ∧ (chapter_word_count chapter > target_length * 13 / 10 →
      _check_length chapter target_length =
        ["Chapter is too long: " ++ toString (chapter_word_count chapter)
          ++ " words (target: " ++ toString target_length ++ ")"])
    ∧ (target_length * 7 / 10 ≤ chapter_word_count chapter →
       chapter_word_count chapter ≤ target_length * 13 / 10 →
      _check_length chapter target_length = [])
    ∧ (2000 * 7 / 10 = 1400 ∧ 2000 * 13 / 10 = 2600) := by
  refine ⟨?_, ?_, ?_, by decide, by decide⟩
  · intro h
    simp only [_check_length]
    rw [if_pos h]
  · intro h
    simp only [_check_length]
    rw [if_neg (by omega), if_pos h]
  · intro h1 h2
    simp only [_check_length]
    rw [if_neg (by omega), if_neg (by omega)]

/-- Witness for C6 at target 2000: 1399 words give the "too short" issue,
2601 the "too long" issue, and the boundary counts 1400 and 2600 pass. -/
theorem check_length_contract_witness :
    _check_length (mk_len_chapter 1399) 2000
      = ["Chapter is too short: 1399 words (target: 2000)"]
    ∧ _check_length (mk_len_chapter 2601) 2000
      = ["Chapter is too long: 2601 words (target: 2000)"]
    ∧ _check_length (mk_len_chapter 1400) 2000 = []
    ∧ _check_length (mk_len_chapter 2600) 2000 = [] := by
  have h1399 := chapter_word_count_mk 1399
  have h2601 := chapter_word_count_mk 2601
  have h1400 := chapter_word_count_mk 1400
  have h2600 := chapter_word_count_mk 2600
  refine ⟨?_, ?_, ?_, ?_⟩
  · have happ := (check_length_contract (mk_len_chapter 1399) 2000).1 (by rw [h1399]; decide)
    rw [h1399] at happ
    rw [happ]
    decide
  · have happ := (check_length_contract (mk_len_chapter 2601) 2000).2.1 (by rw [h2601]; decide)
    rw [h2601] at happ
    rw [happ]
    decide
  · exact (check_length_contract (mk_len_chapter 1400) 2000).2.2.1
      (by rw [h1400]) (by rw [h1400]; decide)
  · exact (check_length_contract (mk_len_chapter 2600) 2000).2.2.1
      (by rw [h2600]; decide) (by rw [h2600])

/-- C7: for every Text Generation Capability behaviour `gen`, chapter,
chapter blueprint and book blueprint, `review_chapter` returns a
ReviewResult that passes exactly when the aggregate of the four check
lists is empty (and whose `issues` field is that aggregate, composed of
the four checks' outputs), and updates the chapter blueprint in place:
`review_status` becomes PASSED when passed and NEEDS_REPAIR otherwise,
`review_notes` becomes the aggregated issue list, and every other
blueprint field is untouched. -/
theorem review_chapter_contract (gen : String → String → String) (chapter : Chapter)
    (chapter_bp : ChapterBlueprint) (blueprint : BookBlueprint) :
    let r := (review_chapter gen chapter chapter_bp blueprint).1
    let bp' := (review_chapter gen chapter chapter_bp blueprint).2
    (r.passed = true ↔
      r.coherence_issues ++ r.complexity_issues ++ r.length_issues
        ++ r.topic_deviation_issues = [])
    ∧ r.issues = r.coherence_issues ++ r.complexity_issues ++ r.length_issues
        ++ r.topic_deviation_issues
    ∧ r.coherence_issues = _check_coherence gen chapter
    ∧ r.complexity_issues = _check_complexity gen chapter chapter_bp.complexity_level
    ∧ r.length_issues = _check_length chapter chapter_bp.estimated_length
    ∧ r.topic_deviation_issues = _check_topic_adherence gen chapter chapter_bp blueprint
    ∧ bp'.review_status = (if r.passed then ReviewStatus.PASSED else ReviewStatus.NEEDS_REPAIR)
    ∧ bp'.review_notes = r.issues
    ∧ bp'.number = chapter_bp.number
    ∧ bp'.title = chapter_bp.title
    ∧ bp'.description = chapter_bp.description
    ∧ bp'.complexity_level = chapter_bp.complexity_level
    ∧ bp'.estimated_length = chapter_bp.estimated_length
    ∧ bp'.section_titles = chapter_bp.section_titles
    ∧ bp'.learning_objectives = chapter_bp.learning_objectives
    ∧ bp'.key_concepts = chapter_bp.key_concepts
    ∧ bp'.prerequisites = chapter_bp.prerequisites
    ∧ r.chapter_number = chapter.number := by
  dsimp only [review_chapter]
  refine ⟨?_, rfl, rfl, rfl, rfl, rfl, rfl, rfl, rfl, rfl, rfl, rfl, rfl, rfl, rfl, rfl,
    rfl, rfl⟩
  simp [List.length_eq_zero]

/-- Counterexample for C8: a capability response of "5" is valid JSON but
not an object, so `UserPrompt.from_dict(5)` calls `.get` on an int and
raises an uncaught `AttributeError` — `interpret_prompt` does not return
a UserPrompt for every response string. -/
theorem interpret_prompt_raises_counterexample :
    interpret_prompt "5" "Build me a book about Rust" = .error PyErr.attributeError := by
  rfl

/-- C8 (amended): whenever the response yields no parsable JSON at all
(no balanced object is found and `json.loads` on the whole response
raises `JSONDecodeError`) — in particular for the always-empty stub —
`interpret_prompt` returns, without raising, the degraded UserPrompt
whose topic is the raw input verbatim, audience "general readers", and
learning outcome "Understand " followed by the topic.  (For a response
that parses as non-object JSON, or as an object with a truthy invalid
complexity_level, the error from `UserPrompt.from_dict` propagates.) -/
theorem interpret_prompt_fallback (response raw_prompt : String) :
    (_extract_json_object response = none → json_loads response = none →
      interpret_prompt response raw_prompt =
        .ok { topic := raw_prompt, audience := "general readers",
              learning_outcome := "Understand " ++ raw_prompt })
    ∧ interpret_prompt "" raw_prompt =
        .ok { topic := raw_prompt, audience := "general readers",
              learning_outcome := "Understand " ++ raw_prompt } := by
  constructor
  · intro h1 h2
    simp [interpret_prompt, h1, h2]
  · rfl

/-- Witness for C8's amended theorem at the empty-string stub and the
specification's example prompt. -/
theorem interpret_prompt_fallback_witness :
    interpret_prompt "" "Build me a book about Rust" =
      .ok { topic := "Build me a book about Rust", audience := "general readers",
            learning_outcome := "Understand Build me a book about Rust" } :=
  (interpret_prompt_fallback "" "Build me a book about Rust").1 rfl rfl

set_option maxRecDepth 20000 in
/-- C3 (code evaluated at the failing input): on a successfully parsed
three-chapter array whose earlier chapters introduce six concepts in
total, the Planner assigns chapter 3 the FIRST five accumulated concepts
(`prerequisites[:5]`), not the five most recent ones that the source's own
comment ("Limit to most recent 5") and the specification require; chapter
1's prerequisites are empty as specified. -/
theorem chapter_prerequisites_takes_first_five :
    ((_generate_chapter_blueprints planner_response_sample { topic := "t" } 3
        .INTERMEDIATE).map ChapterBlueprint.prerequisites)
      = [[], ["c1", "c2", "c3"], ["c1", "c2", "c3", "c4", "c5"]]
    ∧ (["c1", "c2", "c3", "c4", "c5"] : List String) ≠ ["c2", "c3", "c4", "c5", "c6"] := by
  constructor
  · rfl
  · decide

/-- Helper: bind of a successful `Except` computation reduces. -/
theorem except_ok_bind {α β : Type} (a : α) (f : α → Except PyErr β) :
    ((Except.ok a : Except PyErr α) >>= f) = f a := rfl

/-- Helper: decoding the serialized objectives reproduces each objective
with its `chapter_number` reset to `None` (the field is not emitted). -/
theorem mapExcept_parseObjective (objs : List LearningObjective) :
    mapExcept parseObjective (objs.map LearningObjective.to_dict_entry)
      = .ok (objs.map stripObjNum) := by
  induction objs with
  | nil => rfl
  | cons o rest ih =>
    simp [mapExcept, LearningObjective.to_dict_entry, parseObjective, ih, jStrD, dictGet,
      Json.asPyStr, stripObjNum, except_ok_bind]

/-- Helper: the complexity enum round-trips through its value string. -/
theorem complexity_fromValue_value (c : ComplexityLevel) :
    ComplexityLevel.fromValue (.str c.value) = .ok c := by
  cases c <;> rfl

/-- Helper: the review-status enum round-trips through its value string. -/
theorem review_status_fromValue_value (s : ReviewStatus) :
    ReviewStatus.fromValue (.str s.value) = .ok s := by
  cases s <;> rfl

/-- Helper: a serialized string list decodes to itself. -/
theorem map_asPyStr_str (xs : List String) :
    List.map (Json.asPyStr ∘ Json.str) xs = xs := by
  have h : Json.asPyStr ∘ Json.str = id := rfl
  rw [h, List.map_id]

/-- Helper: a chapter blueprint round-trips through `to_dict`/`from_dict`
up to erasure of each objective's `chapter_number`. -/
theorem chapter_blueprint_round_trip (c : ChapterBlueprint) :
    ChapterBlueprint.from_dict c.to_dict = .ok (stripChapterObjNums c) := by
  simp [ChapterBlueprint.from_dict, ChapterBlueprint.to_dict, jListE, dictGet, jStrD, jNatD,
    jStrListD, mapExcept_parseObjective, complexity_fromValue_value,
    review_status_fromValue_value, Json.asPyStr, map_asPyStr_str, stripChapterObjNums, except_ok_bind]

/-- Helper: the serialized chapter list decodes chapter-wise. -/
theorem mapExcept_chapters (chs : List ChapterBlueprint) :
    mapExcept (fun j =>
        match j with
        | .obj d => ChapterBlueprint.from_dict d
        | _ => (.error .attributeError : Except PyErr ChapterBlueprint))
      (chs.map (fun c => Json.obj c.to_dict))
      = .ok (chs.map stripChapterObjNums) := by
  induction chs with
  | nil => rfl
  | cons c rest ih => simp [mapExcept, chapter_blueprint_round_trip, ih, except_ok_bind]

/-- Counterexample for C9: serializing and deserializing a blueprint whose
learning objective carries `chapter_number = 1` yields an objective with
`chapter_number = None` — the field is dropped by `to_dict`, so the
round trip does not reproduce every field. -/
theorem book_blueprint_round_trip_counterexample :
    (BookBlueprint.from_dict 0 bb_counter.to_dict).map
        (fun bb => bb.learning_objectives.map LearningObjective.chapter_number)
      = .ok [none]
    ∧ bb_counter.learning_objectives.map LearningObjective.chapter_number = [some 1] :=
  ⟨rfl, rfl⟩

/-- C9 (amended): `BookBlueprint.from_dict (b.to_dict)` reproduces every
field of `b` exactly — including all nested ChapterBlueprint fields,
review_status and review_notes, and the creation timestamp — except that
every learning objective's `chapter_number` (book-level and
chapter-level) is not serialized and decodes as `None`. -/
theorem book_blueprint_round_trip (b : BookBlueprint) (now : Nat) :
    BookBlueprint.from_dict now b.to_dict = .ok (stripBookObjNums b) := by
  simp [BookBlueprint.from_dict, BookBlueprint.to_dict, jListE, dictGet, jStrD, jNatD,
    jBoolD, jStrListD, mapExcept_parseObjective, mapExcept_chapters,
    complexity_fromValue_value, Json.asPyStr, map_asPyStr_str, stripBookObjNums, except_ok_bind]

/-- Helper: replacement by number preserves the chapter count. -/
theorem replaceFirstChapter_length (l : List Chapter) (num : Nat) (rep : Chapter) :
    (replaceFirstChapter l num rep).length = l.length := by
  induction l with
  | nil => rfl
  | cons ch rest ih =>
    simp only [replaceFirstChapter]
    split <;> simp [ih]

/-- Helper: replacement by number leaves every position holding a chapter
of a different number untouched. -/
theorem replaceFirstChapter_get_ne (l : List Chapter) (num : Nat) (rep : Chapter) (j : Nat)
    (ch : Chapter) (hget : l.get? j = some ch) (hne : ch.number ≠ num) :
    (replaceFirstChapter l num rep).get? j = some ch := by
  induction l generalizing j with
  | nil => simp at hget
  | cons c rest ih =>
    cases j with
    | zero =>
      rw [List.get?_cons_zero, Option.some.injEq] at hget
      subst hget
      simp [replaceFirstChapter, hne]
    | succ k =>
      simp only [List.get?_cons_succ] at hget
      simp only [replaceFirstChapter]
      by_cases hb : (c.number == num) = true
      · simp only [hb, if_true, List.get?_cons_succ]
        exact hget
      · simp only [Bool.not_eq_true] at hb
        simp only [hb, Bool.false_eq_true, if_false, List.get?_cons_succ]
        exact ih k hget

/-- Helper: one repair-loop iteration leaves every non-chapter field of
the book unchanged. -/
theorem repair_step_fields
    (repair : Chapter → ChapterBlueprint → BookBlueprint → List String → Chapter)
    (bp : BookBlueprint) (bk : Book) (r : ReviewResult) :
    (repair_step repair bp bk r).title = bk.title
    ∧ (repair_step repair bp bk r).author = bk.author
    ∧ (repair_step repair bp bk r).description = bk.description
    ∧ (repair_step repair bp bk r).preface = bk.preface
    ∧ (repair_step repair bp bk r).target_audience = bk.target_audience
    ∧ (repair_step repair bp bk r).programming_language = bk.programming_language
    ∧ (repair_step repair bp bk r).metadata = bk.metadata
    ∧ (repair_step repair bp bk r).created_at = bk.created_at
    ∧ (repair_step repair bp bk r).updated_at = bk.updated_at := by
  unfold repair_step
  split
  · exact ⟨rfl, rfl, rfl, rfl, rfl, rfl, rfl, rfl, rfl⟩
  · split <;> exact ⟨rfl, rfl, rfl, rfl, rfl, rfl, rfl, rfl, rfl⟩

/-- Helper: one repair-loop iteration preserves the chapter count. -/
theorem repair_step_length
    (repair : Chapter → ChapterBlueprint → BookBlueprint → List String → Chapter)
    (bp : BookBlueprint) (bk : Book) (r : ReviewResult) :
    (repair_step repair bp bk r).chapters.length = bk.chapters.length := by
  unfold repair_step
  split
  · rfl
  · split
    · exact replaceFirstChapter_length _ _ _
    · rfl

/-- Helper: one repair-loop iteration leaves a chapter untouched unless
the iteration's result fails, matches that chapter's number, and has a
matching chapter blueprint. -/
theorem repair_step_get_frame
    (repair : Chapter → ChapterBlueprint → BookBlueprint → List String → Chapter)
    (bp : BookBlueprint) (bk : Book) (r : ReviewResult) (j : Nat) (ch : Chapter)
    (hget : bk.chapters.get? j = some ch)
    (hno : ¬ (r.passed = false ∧ r.chapter_number = ch.number
        ∧ ∃ cbp ∈ bp.chapters, cbp.number = ch.number)) :
    (repair_step repair bp bk r).chapters.get? j = some ch := by
  unfold repair_step
  split
  · exact hget
  · rename_i hpassed
    simp only [Bool.not_eq_true] at hpassed
    split
    · rename_i chapter chapter_bp hfound hbp
      have hchnum : chapter.number = r.chapter_number := by
        have := List.find?_some hfound
        simpa using this
      have hbpmem : chapter_bp ∈ bp.chapters := List.mem_of_find?_eq_some hbp
      have hbpnum : chapter_bp.number = r.chapter_number := by
        have := List.find?_some hbp
        simpa using this
      have hne : ch.number ≠ chapter.number := by
        intro he
        exact hno ⟨hpassed, by rw [← hchnum, ← he],
          ⟨chapter_bp, hbpmem, by rw [hbpnum, ← hchnum, ← he]⟩⟩
      exact replaceFirstChapter_get_ne _ _ _ _ _ hget hne
    · exact hget

/-- C10: `_repair_book` only touches chapters for which a failing review
result with matching number and a chapter blueprint with matching number
exist: every non-chapter field of the returned book (title, author,
description, preface, target audience, language, metadata, timestamps)
equals the input's, the chapter count is unchanged, and every chapter
position holding a chapter with no such failing-result/blueprint match —
in particular every chapter whose result passed and every chapter with no
matching result or blueprint — still holds that chapter unchanged.  (The
Python function returns the very book object it was given, mutated in
place; in this embedding that is the conjunction of these frame
equalities.) -/
theorem repair_book_frame
    (repair : Chapter → ChapterBlueprint → BookBlueprint → List String → Chapter)
    (blueprint : BookBlueprint) (results : List ReviewResult) (book : Book) :
    ((_repair_book repair book blueprint results).title = book.title
      ∧ (_repair_book repair book blueprint results).author = book.author
      ∧ (_repair_book repair book blueprint results).description = book.description
      ∧ (_repair_book repair book blueprint results).preface = book.preface
      ∧ (_repair_book repair book blueprint results).target_audience = book.target_audience
      ∧ (_repair_book repair book blueprint results).programming_language
          = book.programming_language
      ∧ (_repair_book repair book blueprint results).metadata = book.metadata
      ∧ (_repair_book repair book blueprint results).created_at = book.created_at
      ∧ (_repair_book repair book blueprint results).updated_at = book.updated_at)
    ∧ (_repair_book repair book blueprint results).chapters.length = book.chapters.length
    ∧ (∀ j ch, book.chapters.get? j = some ch →
        (¬ ∃ r ∈ results, r.passed = false ∧ r.chapter_number = ch.number
            ∧ ∃ cbp ∈ blueprint.chapters, cbp.number = ch.number) →
        (_repair_book repair book blueprint results).chapters.get? j = some ch) := by
  induction results generalizing book with
  | nil => exact ⟨⟨rfl, rfl, rfl, rfl, rfl, rfl, rfl, rfl, rfl⟩, rfl, fun j ch h _ => h⟩
  | cons r rest ih =>
    have hstep : _repair_book repair book blueprint (r :: rest)
        = _repair_book repair (repair_step repair blueprint book r) blueprint rest := rfl
    rw [hstep]
    obtain ⟨ihf, ihl, ihg⟩ := ih (repair_step repair blueprint book r)
    obtain ⟨f1, f2, f3, f4, f5, f6, f7, f8, f9⟩ := repair_step_fields repair blueprint book r
    obtain ⟨g1, g2, g3, g4, g5, g6, g7, g8, g9⟩ := ihf
    refine ⟨⟨?_, ?_, ?_, ?_, ?_, ?_, ?_, ?_, ?_⟩, ?_, ?_⟩
    · rw [g1, f1]
    · rw [g2, f2]
    · rw [g3, f3]
    · rw [g4, f4]
    · rw [g5, f5]
    · rw [g6, f6]
    · rw [g7, f7]
    · rw [g8, f8]
    · rw [g9, f9]
    · rw [ihl, repair_step_length]
    · intro j ch hget hno
      have hno_r : ¬ (r.passed = false ∧ r.chapter_number = ch.number
          ∧ ∃ cbp ∈ blueprint.chapters, cbp.number = ch.number) := by
        intro hcon
        exact hno ⟨r, List.mem_cons_self r rest, hcon⟩
      have hstep_get := repair_step_get_frame repair blueprint book r j ch hget hno_r
      refine ihg j ch hstep_get ?_
      intro ⟨r', hr'mem, hr'⟩
      exact hno ⟨r', List.mem_cons_of_mem r hr'mem, hr'⟩

/-- Witness for C10: with a failing result for chapter 1 only, chapter 2
and every non-chapter field of the sample book are unchanged. -/
theorem repair_book_frame_witness :
    (_repair_book repair_sample_fix repair_sample_book repair_sample_bp
        repair_sample_results).chapters.get? 1 = some { title := "Bch", number := 2 }
    ∧ (_repair_book repair_sample_fix repair_sample_book repair_sample_bp
        repair_sample_results).title = "B" := by
  have h := repair_book_frame repair_sample_fix repair_sample_bp repair_sample_results
    repair_sample_book
  refine ⟨h.2.2 1 { title := "Bch", number := 2 } rfl ?_, h.1.1⟩
  decide

/-- Helper: a legal non-COMPLETE transition through `_transition` just
switches the current state. -/
theorem _transition_ok_ne (st : AgenticState) (t : LifecycleState) (now : Nat)
    (h : (st.current_state, t) ∈ specLegalPairs) (ht : t ≠ .COMPLETE) :
    _transition st t now = .ok { st with current_state := t } := by
  simp [_transition, transition_to_eq, h, ht]

/-- Helper: a legal transition to COMPLETE also stamps `completed_at`. -/
theorem _transition_ok_complete (st : AgenticState) (now : Nat)
    (h : (st.current_state, .COMPLETE) ∈ specLegalPairs) :
    _transition st .COMPLETE now
      = .ok { st with current_state := .COMPLETE, completed_at := some now } := by
  simp [_transition, transition_to_eq, h]

/-- Helper: head hit for `List.find?` with the predicate pinned. -/
theorem find?_cons_true {α : Type} (p : α → Bool) (a : α) (l : List α) (h : p a = true) :
    List.find? p (a :: l) = some a := by
  simp [List.find?, h]

/-- Helper: head miss for `List.find?` with the predicate pinned. -/
theorem find?_cons_false {α : Type} (p : α → Bool) (a : α) (l : List α) (h : p a = false) :
    List.find? p (a :: l) = List.find? p l := by
  simp [List.find?, h]

/-- Helper: replacing an existing key by `dictSet`'s map branch makes its
lookup return the new value. -/
theorem find_map_self (k : String) (v : Json) :
    ∀ d : List (String × Json), d.any (fun p => p.1 == k) = true →
      dictGet (d.map (fun p => if p.1 == k then (k, v) else p)) k = some v
  | [], h => by simp at h
  | p :: rest, h => by
    rw [List.map_cons]
    by_cases hp : (p.1 == k) = true
    · rw [if_pos hp]
      unfold dictGet
      rw [find?_cons_true (fun q => q.1 == k) (k, v) _ (by simp)]
      rfl
    · rw [if_neg hp]
      unfold dictGet
      rw [find?_cons_false (fun q => q.1 == k) p _ (by simpa using hp)]
      refine find_map_self k v rest ?_
      simp only [List.any_cons, Bool.or_eq_true] at h
      exact h.resolve_left hp

/-- Helper: appending a fresh key by `dictSet`'s append branch makes its
lookup return the new value. -/
theorem find_append_self (k : String) (v : Json) :
    ∀ d : List (String × Json), (∀ p ∈ d, (p.1 == k) = false) →
      dictGet (d ++ [(k, v)]) k = some v
  | [], _ => by
    unfold dictGet
    rw [List.nil_append, find?_cons_true (fun q => q.1 == k) (k, v) _ (by simp)]
    rfl
  | p :: rest, h => by
    rw [List.cons_append]
    unfold dictGet
    rw [find?_cons_false (fun q => q.1 == k) p _ (h p (List.mem_cons_self p rest))]
    exact find_append_self k v rest (fun q hq => h q (List.mem_cons_of_mem p hq))

/-- Helper: looking up the key just written by `dictSet`. -/
theorem dictGet_dictSet_self (d : List (String × Json)) (k : String) (v : Json) :
    dictGet (dictSet d k v) k = some v := by
  unfold dictSet
  by_cases h : d.any (fun p => p.1 == k) = true
  · rw [if_pos h]
    exact find_map_self k v d h
  · rw [if_neg h]
    refine find_append_self k v d ?_
    simp only [Bool.not_eq_true, List.any_eq_false] at h
    intro p hp
    simpa using h p hp

/-- Helper: `dictSet`'s map branch does not disturb other keys. -/
theorem find_map_ne (k k' : String) (v : Json) (hbk : (k' == k) = false) :
    ∀ d : List (String × Json),
      dictGet (d.map (fun p => if p.1 == k' then (k', v) else p)) k = dictGet d k
  | [] => rfl
  | p :: rest => by
    rw [List.map_cons]
    by_cases hp : (p.1 == k') = true
    · have hpk : (p.1 == k) = false := by
        have hp1 : p.1 = k' := by simpa using hp
        rw [hp1]
        exact hbk
      rw [if_pos hp]
      unfold dictGet
      rw [find?_cons_false (fun q => q.1 == k) (k', v) _ hbk,
        find?_cons_false (fun q => q.1 == k) p _ hpk]
      exact find_map_ne k k' v hbk rest
    · rw [if_neg hp]
      by_cases hpk : (p.1 == k) = true
      · unfold dictGet
        rw [find?_cons_true (fun q => q.1 == k) p _ hpk,
          find?_cons_true (fun q => q.1 == k) p _ hpk]
      · rw [Bool.not_eq_true] at hpk
        unfold dictGet
        rw [find?_cons_false (fun q => q.1 == k) p _ hpk,
          find?_cons_false (fun q => q.1 == k) p _ hpk]
        exact find_map_ne k k' v hbk rest

/-- Helper: `dictSet`'s append branch does not disturb other keys. -/
theorem find_append_ne (k k' : String) (v : Json) (hbk : (k' == k) = false) :
    ∀ d : List (String × Json), dictGet (d ++ [(k', v)]) k = dictGet d k
  | [] => by
    unfold dictGet
    rw [List.nil_append, find?_cons_false (fun q => q.1 == k) (k', v) _ hbk]
  | p :: rest => by
    rw [List.cons_append]
    by_cases hpk : (p.1 == k) = true
    · unfold dictGet
      rw [find?_cons_true (fun q => q.1 == k) p _ hpk,
        find?_cons_true (fun q => q.1 == k) p _ hpk]
    · rw [Bool.not_eq_true] at hpk
      unfold dictGet
      rw [find?_cons_false (fun q => q.1 == k) p _ hpk,
        find?_cons_false (fun q => q.1 == k) p _ hpk]
      exact find_append_ne k k' v hbk rest

/-- Helper: `dictSet` at one key leaves every other key's lookup
unchanged. -/
theorem dictGet_dictSet_ne (d : List (String × Json)) (k k' : String) (v : Json)
    (hne : k ≠ k') : dictGet (dictSet d k' v) k = dictGet d k := by
  have hbk : (k' == k) = false := by
    simp only [beq_eq_false_iff_ne, ne_eq]
    exact fun h => hne h.symm
  unfold dictSet
  by_cases h : d.any (fun p => p.1 == k') = true
  · rw [if_pos h]
    exact find_map_ne k k' v hbk d
  · rw [if_neg h]
    exact find_append_ne k k' v hbk d

/-- Helper: the repair phase never touches the book metadata. -/
theorem repair_book_metadata
    (repair : Chapter → ChapterBlueprint → BookBlueprint → List String → Chapter)
    (bp : BookBlueprint) :
    ∀ (results : List ReviewResult) (book : Book),
      (_repair_book repair book bp results).metadata = book.metadata := by
  intro results
  induction results with
  | nil => intro book; rfl
  | cons r rest ih =>
    intro book
    have hstep : _repair_book repair book bp (r :: rest)
        = _repair_book repair (repair_step repair bp book r) bp rest := rfl
    rw [hstep, ih, (repair_step_fields repair bp book r).2.2.2.2.2.2.1]

/-- Helper: a review list with a failing entry makes `_needs_repair`
true. -/
theorem needs_repair_of_exists (l : List ReviewResult)
    (h : ∃ r ∈ l, r.passed = false) : _needs_repair l = true := by
  obtain ⟨r, hm, hr⟩ := h
  exact List.any_eq_true.mpr ⟨r, hm, by simp [hr]⟩

/-- Helper: the writing phase changes only the `chapters_written` counter
of the orchestrator state. -/
theorem write_book_state_proj (A : Agents) (bp : BookBlueprint) (st : AgenticState)
    (now : Nat) :
    (_write_book A bp st now).2.current_state = st.current_state
    ∧ (_write_book A bp st now).2.repair_iterations = st.repair_iterations
    ∧ (_write_book A bp st now).2.completed_at = st.completed_at := by
  unfold _write_book
  suffices h : ∀ (chs : List ChapterBlueprint) (acc : Book × AgenticState),
      (chs.foldl (fun acc chapter_bp =>
          (acc.1.add_chapter (A.write_chapter chapter_bp bp) now,
           { acc.2 with chapters_written := acc.2.chapters_written + 1 })) acc).2.current_state
        = acc.2.current_state
      ∧ (chs.foldl (fun acc chapter_bp =>
          (acc.1.add_chapter (A.write_chapter chapter_bp bp) now,
           { acc.2 with chapters_written := acc.2.chapters_written + 1 })) acc).2.repair_iterations
        = acc.2.repair_iterations
      ∧ (chs.foldl (fun acc chapter_bp =>
          (acc.1.add_chapter (A.write_chapter chapter_bp bp) now,
           { acc.2 with chapters_written := acc.2.chapters_written + 1 })) acc).2.completed_at
        = acc.2.completed_at by
    exact h bp.chapters _
  intro chs
  induction chs with
  | nil => intro acc; exact ⟨rfl, rfl, rfl⟩
  | cons c rest ih =>
    intro acc
    exact ih _

/-- Helper: when every review pass keeps failing, the repair loop runs
down its full budget: starting at REVIEW with `iteration + k = max`, it
returns successfully with iteration count `max`, `repair_iterations`
equal to `max` (unless the budget is already exhausted), the final state
back at REVIEW, still-failing results, and the book metadata untouched by
the repairs. -/
theorem repairLoop_saturates (A : Agents) (blueprint : BookBlueprint) (now max : Nat)
    (hrev : ∀ (b : Book) (bp : BookBlueprint), _needs_repair (A.review b bp) = true) :
    ∀ (k iteration : Nat) (book : Book) (results : List ReviewResult) (st : AgenticState),
      iteration + k = max →
      st.current_state = .REVIEW →
      _needs_repair results = true →
      ∃ p : Book × List ReviewResult × AgenticState × Nat,
        repairLoop A blueprint now max book results st iteration = .ok p
        ∧ p.2.2.1.current_state = .REVIEW
        ∧ p.2.2.1.repair_iterations = (if k = 0 then st.repair_iterations else max)
        ∧ _needs_repair p.2.1 = true
        ∧ p.1.metadata = book.metadata := by
  intro k
  induction k with
  | zero =>
    intro iteration book results st hk hst hneeds
    refine ⟨(book, results, st, iteration), ?_, hst, by simp, hneeds, rfl⟩
    unfold repairLoop
    rw [dif_neg]
    rintro ⟨h1, h2⟩
    omega
  | succ k ih =>
    intro iteration book results st hk hst hneeds
    have hlt : iteration < max := by omega
    have mem1 : (st.current_state, LifecycleState.REPAIR) ∈ specLegalPairs := by
      rw [hst]; decide
    have h1 : _transition st .REPAIR now = .ok { st with current_state := .REPAIR } :=
      _transition_ok_ne st .REPAIR now mem1 (by decide)
    have mem2 : (({ st with current_state := LifecycleState.REPAIR, repair_iterations := iteration + 1 } : AgenticState).current_state, LifecycleState.REVIEW) ∈ specLegalPairs := by
      show (LifecycleState.REPAIR, LifecycleState.REVIEW) ∈ specLegalPairs
      decide
    have h2 : _transition { st with current_state := .REPAIR, repair_iterations := iteration + 1 } .REVIEW now = .ok { st with current_state := .REVIEW, repair_iterations := iteration + 1 } :=
      _transition_ok_ne { st with current_state := .REPAIR, repair_iterations := iteration + 1 } .REVIEW now mem2 (by decide)
    unfold repairLoop
    rw [dif_pos ⟨hneeds, hlt⟩]
    simp only [h1, h2, except_ok_bind, _review_book]
    obtain ⟨p, heq, hcs, hri, hneeds2, hmeta⟩ := ih (iteration + 1) (_repair_book A.repair_chapter book blueprint results) (A.review (_repair_book A.repair_chapter book blueprint results) blueprint) { st with current_state := .REVIEW, repair_iterations := iteration + 1, chapters_reviewed := (A.review (_repair_book A.repair_chapter book blueprint results) blueprint).length, review_results := A.review (_repair_book A.repair_chapter book blueprint results) blueprint } (by omega) rfl (hrev _ _)
    refine ⟨p, heq, hcs, ?_, hneeds2, ?_⟩
    · rw [hri]
      rcases Nat.eq_zero_or_pos k with hk0 | hkpos
      · rw [if_pos hk0, if_neg (by omega)]
        show iteration + 1 = max
        omega
      · rw [if_neg (by omega), if_neg (by omega)]
    · rw [hmeta, repair_book_metadata]

/-- Helper: the format phase adds only the learning-objective and
prior-knowledge metadata entries; other keys are untouched. -/
theorem format_book_metadata_other (A : Agents) (book : Book) (bp : BookBlueprint)
    (k : String) (h1 : k ≠ "learning_objectives") (h2 : k ≠ "assumed_prior_knowledge") :
    dictGet (_format_book A book bp).metadata k = dictGet book.metadata k := by
  unfold _format_book
  dsimp only
  rw [dictGet_dictSet_ne _ _ _ _ h2, dictGet_dictSet_ne _ _ _ _ h1]
  split <;> rfl

/-- Helper: the export phase adds only the table-of-contents, glossary,
and index metadata entries; other keys are untouched. -/
theorem formatter_metadata_other (A : Agents) (book : Book) (bp : BookBlueprint)
    (path : String) (fmt : Option String) (k : String)
    (h1 : k ≠ "table_of_contents") (h2 : k ≠ "glossary") (h3 : k ≠ "index") :
    dictGet (formatter_format_book A book bp path fmt).1.metadata k
      = dictGet book.metadata k := by
  unfold formatter_format_book
  dsimp only
  rw [dictGet_dictSet_ne _ _ _ _ h3]
  split
  · rw [dictGet_dictSet_ne _ _ _ _ h2, dictGet_dictSet_ne _ _ _ _ h1]
    split <;> rfl
  · rw [dictGet_dictSet_ne _ _ _ _ h1]
    split <;> rfl

/-- C2: with the review step stubbed to always report at least one
failing chapter, `generate_from_prompt` with `max_repair_iterations = 3`
performs exactly 3 repair passes (the final state's `repair_iterations`
is 3), terminates without raising, and the returned book's metadata
contains `unresolved_review_issues = true`. -/
theorem generate_repair_bound (A : Agents) (prompt output_path : String) (now : Nat)
    (hrev : ∀ (b : Book) (bp : BookBlueprint), ∃ r ∈ A.review b bp, r.passed = false) :
    ∃ p : Book × AgenticState,
      generate_from_prompt A prompt output_path 3 now = .ok p
      ∧ dictGet p.1.metadata "unresolved_review_issues" = some (.bool true)
      ∧ p.2.repair_iterations = 3 := by
  have hrev2 : ∀ (b : Book) (bp : BookBlueprint), _needs_repair (A.review b bp) = true :=
    fun b bp => needs_repair_of_exists _ (hrev b bp)
  have t1 : _transition { raw_prompt := prompt, output_path := output_path, max_repair_iterations := 3, started_at := now } .INTERPRET now = .ok { current_state := LifecycleState.INTERPRET, user_prompt := none, raw_prompt := prompt, blueprint := none, review_results := [], chapters_written := 0, chapters_reviewed := 0, repair_iterations := 0, max_repair_iterations := 3, output_path := output_path, started_at := now, completed_at := none, errors := [] } :=
    _transition_ok_ne _ _ _ (by show (LifecycleState.INIT, LifecycleState.INTERPRET) ∈ specLegalPairs; decide) (by decide)
  have t2 : _transition { current_state := LifecycleState.INTERPRET, user_prompt := some (A.interpret prompt), raw_prompt := prompt, blueprint := none, review_results := [], chapters_written := 0, chapters_reviewed := 0, repair_iterations := 0, max_repair_iterations := 3, output_path := output_path, started_at := now, completed_at := none, errors := [] } .PLAN now = .ok { current_state := LifecycleState.PLAN, user_prompt := some (A.interpret prompt), raw_prompt := prompt, blueprint := none, review_results := [], chapters_written := 0, chapters_reviewed := 0, repair_iterations := 0, max_repair_iterations := 3, output_path := output_path, started_at := now, completed_at := none, errors := [] } :=
    _transition_ok_ne _ _ _ (by show (LifecycleState.INTERPRET, LifecycleState.PLAN) ∈ specLegalPairs; decide) (by decide)
  have t3 : _transition { current_state := LifecycleState.PLAN, user_prompt := some (A.interpret prompt), raw_prompt := prompt, blueprint := some (A.plan (A.interpret prompt)), review_results := [], chapters_written := 0, chapters_reviewed := 0, repair_iterations := 0, max_repair_iterations := 3, output_path := output_path, started_at := now, completed_at := none, errors := [] } .WRITE now = .ok { current_state := LifecycleState.WRITE, user_prompt := some (A.interpret prompt), raw_prompt := prompt, blueprint := some (A.plan (A.interpret prompt)), review_results := [], chapters_written := 0, chapters_reviewed := 0, repair_iterations := 0, max_repair_iterations := 3, output_path := output_path, started_at := now, completed_at := none, errors := [] } :=
    _transition_ok_ne _ _ _ (by show (LifecycleState.PLAN, LifecycleState.WRITE) ∈ specLegalPairs; decide) (by decide)
  have t4 : _transition (_write_book A (A.plan (A.interpret prompt)) { current_state := LifecycleState.WRITE, user_prompt := some (A.interpret prompt), raw_prompt := prompt, blueprint := some (A.plan (A.interpret prompt)), review_results := [], chapters_written := 0, chapters_reviewed := 0, repair_iterations := 0, max_repair_iterations := 3, output_path := output_path, started_at := now, completed_at := none, errors := [] } now).2 .REVIEW now = .ok { (_write_book A (A.plan (A.interpret prompt)) { current_state := LifecycleState.WRITE, user_prompt := some (A.interpret prompt), raw_prompt := prompt, blueprint := some (A.plan (A.interpret prompt)), review_results := [], chapters_written := 0, chapters_reviewed := 0, repair_iterations := 0, max_repair_iterations := 3, output_path := output_path, started_at := now, completed_at := none, errors := [] } now).2 with current_state := LifecycleState.REVIEW } :=
    _transition_ok_ne _ _ _ (by rw [(write_book_state_proj A (A.plan (A.interpret prompt)) { current_state := LifecycleState.WRITE, user_prompt := some (A.interpret prompt), raw_prompt := prompt, blueprint := some (A.plan (A.interpret prompt)), review_results := [], chapters_written := 0, chapters_reviewed := 0, repair_iterations := 0, max_repair_iterations := 3, output_path := output_path, started_at := now, completed_at := none, errors := [] } now).1]; show (LifecycleState.WRITE, LifecycleState.REVIEW) ∈ specLegalPairs; decide) (by decide)
  obtain ⟨p, hloop, hcs, hri, hneeds2, hmeta⟩ := repairLoop_saturates A (A.plan (A.interpret prompt)) now 3 hrev2 3 0 (_write_book A (A.plan (A.interpret prompt)) { current_state := LifecycleState.WRITE, user_prompt := some (A.interpret prompt), raw_prompt := prompt, blueprint := some (A.plan (A.interpret prompt)), review_results := [], chapters_written := 0, chapters_reviewed := 0, repair_iterations := 0, max_repair_iterations := 3, output_path := output_path, started_at := now, completed_at := none, errors := [] } now).1 (A.review (_write_book A (A.plan (A.interpret prompt)) { current_state := LifecycleState.WRITE, user_prompt := some (A.interpret prompt), raw_prompt := prompt, blueprint := some (A.plan (A.interpret prompt)), review_results := [], chapters_written := 0, chapters_reviewed := 0, repair_iterations := 0, max_repair_iterations := 3, output_path := output_path, started_at := now, completed_at := none, errors := [] } now).1 (A.plan (A.interpret prompt))) { current_state := LifecycleState.REVIEW, user_prompt := (_write_book A (A.plan (A.interpret prompt)) { current_state := LifecycleState.WRITE, user_prompt := some (A.interpret prompt), raw_prompt := prompt, blueprint := some (A.plan (A.interpret prompt)), review_results := [], chapters_written := 0, chapters_reviewed := 0, repair_iterations := 0, max_repair_iterations := 3, output_path := output_path, started_at := now, completed_at := none, errors := [] } now).2.user_prompt, raw_prompt := (_write_book A (A.plan (A.interpret prompt)) { current_state := LifecycleState.WRITE, user_prompt := some (A.interpret prompt), raw_prompt := prompt, blueprint := some (A.plan (A.interpret prompt)), review_results := [], chapters_written := 0, chapters_reviewed := 0, repair_iterations := 0, max_repair_iterations := 3, output_path := output_path, started_at := now, completed_at := none, errors := [] } now).2.raw_prompt, blueprint := (_write_book A (A.plan (A.interpret prompt)) { current_state := LifecycleState.WRITE, user_prompt := some (A.interpret prompt), raw_prompt := prompt, blueprint := some (A.plan (A.interpret prompt)), review_results := [], chapters_written := 0, chapters_reviewed := 0, repair_iterations := 0, max_repair_iterations := 3, output_path := output_path, started_at := now, completed_at := none, errors := [] } now).2.blueprint, review_results := (A.review (_write_book A (A.plan (A.interpret prompt)) { current_state := LifecycleState.WRITE, user_prompt := some (A.interpret prompt), raw_prompt := prompt, blueprint := some (A.plan (A.interpret prompt)), review_results := [], chapters_written := 0, chapters_reviewed := 0, repair_iterations := 0, max_repair_iterations := 3, output_path := output_path, started_at := now, completed_at := none, errors := [] } now).1 (A.plan (A.interpret prompt))), chapters_written := (_write_book A (A.plan (A.interpret prompt)) { current_state := LifecycleState.WRITE, user_prompt := some (A.interpret prompt), raw_prompt := prompt, blueprint := some (A.plan (A.interpret prompt)), review_results := [], chapters_written := 0, chapters_reviewed := 0, repair_iterations := 0, max_repair_iterations := 3, output_path := output_path, started_at := now, completed_at := none, errors := [] } now).2.chapters_written, chapters_reviewed := (A.review (_write_book A (A.plan (A.interpret prompt)) { current_state := LifecycleState.WRITE, user_prompt := some (A.interpret prompt), raw_prompt := prompt, blueprint := some (A.plan (A.interpret prompt)), review_results := [], chapters_written := 0, chapters_reviewed := 0, repair_iterations := 0, max_repair_iterations := 3, output_path := output_path, started_at := now, completed_at := none, errors := [] } now).1 (A.plan (A.interpret prompt))).length, repair_iterations := (_write_book A (A.plan (A.interpret prompt)) { current_state := LifecycleState.WRITE, user_prompt := some (A.interpret prompt), raw_prompt := prompt, blueprint := some (A.plan (A.interpret prompt)), review_results := [], chapters_written := 0, chapters_reviewed := 0, repair_iterations := 0, max_repair_iterations := 3, output_path := output_path, started_at := now, completed_at := none, errors := [] } now).2.repair_iterations, max_repair_iterations := (_write_book A (A.plan (A.interpret prompt)) { current_state := LifecycleState.WRITE, user_prompt := some (A.interpret prompt), raw_prompt := prompt, blueprint := some (A.plan (A.interpret prompt)), review_results := [], chapters_written := 0, chapters_reviewed := 0, repair_iterations := 0, max_repair_iterations := 3, output_path := output_path, started_at := now, completed_at := none, errors := [] } now).2.max_repair_iterations, output_path := (_write_book A (A.plan (A.interpret prompt)) { current_state := LifecycleState.WRITE, user_prompt := some (A.interpret prompt), raw_prompt := prompt, blueprint := some (A.plan (A.interpret prompt)), review_results := [], chapters_written := 0, chapters_reviewed := 0, repair_iterations := 0, max_repair_iterations := 3, output_path := output_path, started_at := now, completed_at := none, errors := [] } now).2.output_path, started_at := (_write_book A (A.plan (A.interpret prompt)) { current_state := LifecycleState.WRITE, user_prompt := some (A.interpret prompt), raw_prompt := prompt, blueprint := some (A.plan (A.interpret prompt)), review_results := [], chapters_written := 0, chapters_reviewed := 0, repair_iterations := 0, max_repair_iterations := 3, output_path := output_path, started_at := now, completed_at := none, errors := [] } now).2.started_at, completed_at := (_write_book A (A.plan (A.interpret prompt)) { current_state := LifecycleState.WRITE, user_prompt := some (A.interpret prompt), raw_prompt := prompt, blueprint := some (A.plan (A.interpret prompt)), review_results := [], chapters_written := 0, chapters_reviewed := 0, repair_iterations := 0, max_repair_iterations := 3, output_path := output_path, started_at := now, completed_at := none, errors := [] } now).2.completed_at, errors := (_write_book A (A.plan (A.interpret prompt)) { current_state := LifecycleState.WRITE, user_prompt := some (A.interpret prompt), raw_prompt := prompt, blueprint := some (A.plan (A.interpret prompt)), review_results := [], chapters_written := 0, chapters_reviewed := 0, repair_iterations := 0, max_repair_iterations := 3, output_path := output_path, started_at := now, completed_at := none, errors := [] } now).2.errors } (by omega) rfl (hrev2 _ _)
  have t6 : _transition p.2.2.1 .FORMAT now = .ok { p.2.2.1 with current_state := LifecycleState.FORMAT } :=
    _transition_ok_ne _ _ _ (by rw [hcs]; decide) (by decide)
  have t7 : _transition { p.2.2.1 with current_state := LifecycleState.FORMAT } .EXPORT now = .ok { p.2.2.1 with current_state := LifecycleState.EXPORT } :=
    _transition_ok_ne _ _ _ (by show (LifecycleState.FORMAT, LifecycleState.EXPORT) ∈ specLegalPairs; decide) (by decide)
  have t8 : _transition { p.2.2.1 with current_state := LifecycleState.EXPORT, output_path := (formatter_format_book A (_format_book A { p.1 with metadata := dictSet p.1.metadata "unresolved_review_issues" (Json.bool true) } (A.plan (A.interpret prompt))) (A.plan (A.interpret prompt)) output_path (some (A.plan (A.interpret prompt)).output_format)).2 } .COMPLETE now = .ok { p.2.2.1 with current_state := LifecycleState.COMPLETE, output_path := (formatter_format_book A (_format_book A { p.1 with metadata := dictSet p.1.metadata "unresolved_review_issues" (Json.bool true) } (A.plan (A.interpret prompt))) (A.plan (A.interpret prompt)) output_path (some (A.plan (A.interpret prompt)).output_format)).2, completed_at := some now } :=
    _transition_ok_complete _ now (by show (LifecycleState.EXPORT, LifecycleState.COMPLETE) ∈ specLegalPairs; decide)
  simp only [generate_from_prompt, t1, t2, t3, t4, hloop, t6, t7, t8, except_ok_bind,
    _review_book, hneeds2, if_true, eq_self_iff_true]
  refine ⟨_, rfl, ?_, ?_⟩
  · rw [formatter_metadata_other A _ _ _ _ _ (by decide) (by decide) (by decide),
      format_book_metadata_other A _ _ _ (by decide) (by decide)]
    exact dictGet_dictSet_self _ _ _
  · show p.2.2.1.repair_iterations = 3
    rw [hri, if_neg (by decide)]

/-- Witness for C2 with the always-failing review stub. -/
theorem generate_repair_bound_witness :
    ∃ p : Book × AgenticState,
      generate_from_prompt stub_agents "write a book" "out/book" 3 0 = .ok p
      ∧ dictGet p.1.metadata "unresolved_review_issues" = some (.bool true)
      ∧ p.2.repair_iterations = 3 :=
  generate_repair_bound stub_agents "write a book" "out/book" 0
    (fun b bp => ⟨{ passed := false, chapter_number := 1 },
      by
        show ({ passed := false, chapter_number := 1 } : ReviewResult)
          ∈ [({ passed := false, chapter_number := 1 } : ReviewResult)]
        decide,
      rfl⟩)

end BookCreator
